import Mathlib

/-
  Verification of the imbi-api fact-scoring and notification-filtering engine.

  The scoring side is a shallow embedding of `imbi/endpoints/projects.py`
  (`_build_score_detail`, `_retrieve_fact_options`, and the text of
  `GET_FACTS_SQL`).  Python numbers (int, float, Decimal) and PostgreSQL
  numerics are modelled as rationals, Python exceptions as an explicit
  error type, and the mutable fact dicts as records carrying an optional
  `detail` field that the computation fills in.

  The notification filter engine and fact update dispatcher are not part
  of the provided sources (only their tests are), so they are modelled
  from the specification, as marked on each such definition.
-/

namespace Imbi

/-- Runtime value of a fact after the coercion step in
`_build_score_detail`: Python bool, number (int and float collapse to a
rational), string, or None. -/
inductive PyVal where
  | vbool (b : Bool)
  | vnum (q : ℚ)
  | vstr (s : String)
  | vnone
deriving DecidableEq, Repr

/-- Python truthiness for the values that `PyVal` can hold. -/
def pyTruthy : PyVal → Bool
  | .vbool b => b
  | .vnum q => q != 0
  | .vstr s => s != ""
  | .vnone => false

/-- Accumulate a base-10 value over a list of characters; `none` as soon
as a non-digit appears.  An empty list yields `some 0`; callers check
non-emptiness where Python `int` and `float` require digits. -/
def parseDigits (cs : List Char) : Option Nat :=
  cs.foldl
    (fun acc c =>
      match acc with
      | none => none
      | some n => if c.isDigit then some (n * 10 + (c.toNat - 48)) else none)
    (some 0)

/-- Split a leading sign character off a character list, returning the
sign as an integer factor. -/
def splitSign : List Char → Int × List Char
  | '-' :: r => (-1, r)
  | '+' :: r => (1, r)
  | r => (1, r)

/-- Python `int(s, 10)` restricted to the plain sign-and-digits strings
that the repository stores for integer facts (the SQL `::integer::text`
cast guarantees this shape); anything else fails. -/
def pyInt (s : String) : Option Int :=
  let sr := splitSign s.data
  if sr.2.isEmpty then none
  else (parseDigits sr.2).map (fun n => sr.1 * (n : Int))

/-- Python `float(s)` restricted to plain decimal notation
(optional sign, digits, optional fractional part), the format produced
by the SQL `::numeric(9,2)::text` cast; anything else fails. -/
def pyFloat (s : String) : Option ℚ :=
  let sr := splitSign s.data
  match sr.2.span (fun c => c != '.') with
  | (ip, []) =>
      if ip.isEmpty then none
      else (parseDigits ip).map (fun n => (sr.1 : ℚ) * (n : ℚ))
  | (ip, _dot :: fp) =>
      if ip.isEmpty && fp.isEmpty then none
      else
        match parseDigits ip, parseDigits fp with
        | some n, some m =>
            some ((sr.1 : ℚ) * ((n : ℚ) + (m : ℚ) / ((10 : ℚ) ^ fp.length)))
        | _, _ => none

/-- ASCII lowering of a string, modelling Python `str.lower` on the
ASCII data stored for boolean facts. -/
def pyLower (s : String) : String :=
  String.mk (s.data.map Char.toLower)

/-- Python `value or default` for an optional string: None and the empty
string are falsy and give the default. -/
def pyOrDefault (v : Option String) (d : String) : String :=
  match v with
  | none => d
  | some s => if s == "" then d else s

/-- Lexicographic strict comparison of character lists by code point,
the comparison Python uses for `str`. -/
def charListLt : List Char → List Char → Bool
  | _, [] => false
  | [], _ :: _ => true
  | a :: as, b :: bs =>
      if a.toNat < b.toNat then true
      else if a.toNat == b.toNat then charListLt as bs
      else false

/-- Python string `<=`. -/
def pyStrLe (a b : String) : Bool := charListLt a.data b.data || a == b

/-- Dictionary insertion with the CPython semantics `_build_score_detail`
relies on: an existing key keeps its position and its original key
object, only the value is replaced; a fresh key is appended at the end. -/
def dictInsert {κ ν : Type} (eq : κ → κ → Bool) :
    List (κ × ν) → κ → ν → List (κ × ν)
  | [], k, v => [(k, v)]
  | kv :: rest, k, v =>
      if eq kv.1 k then (kv.1, v) :: rest else kv :: dictInsert eq rest k v

/-- Python `dict.get(key, default)` over an association list with string
keys, where the key may be None (`selected_option` starts as the raw
stored value, which can be None); `None` is never a key, so it always
falls through to the default. -/
def dictGet (d : List (String × ℚ)) : Option String → Option ℚ
  | none => none
  | some k => (d.find? (fun kv => kv.1 == k)).map (fun kv => kv.2)

/-- Key equality for `String`-keyed dicts. -/
def strEq (a b : String) : Bool := a == b

/-- Equality of Python `range(lo, hi)` objects (step 1): equal ranges
describe the same integer sequence, so all empty ranges are equal and
non-empty ranges are equal exactly when their bounds agree.  This is the
key equality of the range-keyed dict in `_retrieve_fact_options`. -/
def rangeKeyEq (a b : Int × Int) : Bool :=
  (a.1 == b.1 && a.2 == b.2) || (decide (a.2 ≤ a.1) && decide (b.2 ≤ b.1))

/-- Python `int()` applied to a rational (`Decimal`) value truncates
toward zero. -/
def truncToInt (q : ℚ) : Int := q.num.tdiv (q.den : Int)

/-- Python `value in range(lo, hi)`: integers (and bools, which are
integers) are contained when `lo ≤ v < hi`; a float is contained only
when it is integral and in bounds; strings and None are never contained
(range membership falls back to equality with the integer elements). -/
def rangeContains (lo hi : Int) : PyVal → Bool
  | .vnum q => q.den == 1 && decide (lo ≤ q.num) && decide (q.num < hi)
  | .vbool b => decide (lo ≤ (if b then (1 : Int) else 0)) &&
      decide ((if b then (1 : Int) else 0) < hi)
  | .vstr _ => false
  | .vnone => false

/-- The display label built for a range option:
`f'[{r.start}, {r.stop})'`. -/
def rangeLabel (lo hi : Int) : String :=
  "[" ++ toString lo ++ ", " ++ toString hi ++ ")"

/-- Insertion into a list kept sorted by `le`. -/
def insertSorted {α : Type} (le : α → α → Bool) (x : α) : List α → List α
  | [] => [x]
  | y :: ys => if le x y then x :: y :: ys else y :: insertSorted le x ys

/-- Insertion sort, modelling Python `sorted` (only the resulting order
matters here; the sort keys below are total). -/
def pySort {α : Type} (le : α → α → Bool) (l : List α) : List α :=
  l.foldr (insertSorted le) []

/-- The sort key of `_build_score_detail`:
`sorted(options.items(), key=lambda t: (t[1], t[0]))`, ascending by
score and then label. -/
def optKeyLe (x y : String × ℚ) : Bool :=
  decide (x.2 < y.2) || (decide (x.2 = y.2) && pyStrLe x.1 y.1)

/-- One entry of the `options` list of a fact detail:
`{'label': option, 'value': score, 'selected': option == selected_option}`. -/
structure OptionEntry where
  label : String
  value : ℚ
  selected : Bool
deriving DecidableEq, Repr

/-- The `detail` dict added to each fact by `_build_score_detail`. -/
structure Detail where
  contribution : Option ℚ
  score : Option ℚ
  options : List OptionEntry
deriving DecidableEq, Repr

/-- One row of the facts list handed to `_build_score_detail`, shaped by
the SELECT list of `GET_FACTS_SQL` (nullable columns are options), plus
the `detail` slot the computation fills in. -/
structure Fact where
  fact_type_id : Nat
  name : String
  recorded_at : Option String
  recorded_by : Option String
  value : Option String
  data_type : String
  fact_type : String
  ui_options : Option String
  weight : Option ℚ
  score : Option ℚ
  icon_class : Option String
  detail : Option Detail
deriving DecidableEq, Repr

/-- The exceptions `_build_score_detail` can raise: a coercion failure
(caught, logged with the offending fact record, and re-raised), a
`float(None)` failure on the score column, and float division by zero.
Each error carries the fact record being processed. -/
inductive DetailError where
  | coercion (f : Fact)
  | scoreNone (f : Fact)
  | divByZero (f : Fact)
deriving DecidableEq, Repr

/-- The value coercion step of `_build_score_detail` (the try block):
boolean facts lower-case the raw value and compare with "true" (None
raises AttributeError), decimal and integer facts parse with "0.0" and
"0" defaults for null or empty values, everything else passes through.
A failure is logged with the fact record and re-raised; the error value
carries the record. -/
def coerceValue (fact : Fact) : Except DetailError PyVal :=
  if fact.data_type == "boolean" then
    match fact.value with
    | none => .error (.coercion fact)
    | some s => .ok (.vbool (pyLower s == "true"))
  else if fact.data_type == "decimal" then
    match pyFloat (pyOrDefault fact.value "0.0") with
    | none => .error (.coercion fact)
    | some q => .ok (.vnum q)
  else if fact.data_type == "integer" then
    match pyInt (pyOrDefault fact.value "0") with
    | none => .error (.coercion fact)
    | some n => .ok (.vnum (n : ℚ))
  else
    match fact.value with
    | none => .ok .vnone
    | some s => .ok (.vstr s)

/-- Python truthiness of the weight column: None and 0 are falsy. -/
def pyTruthyWeight : Option ℚ → Bool
  | none => false
  | some w => w != 0

/-- The options dict of the boolean branch, in insertion order. -/
def boolOptions : List (String × ℚ) := [("true", 100), ("false", 0)]

/-- One iteration of the range loop of `_build_score_detail`.  The state
is (options dict, selected_option, score): the loop variable is named
`score` in the source and shadows the outer `score = None`, so the last
iterated score leaks out of the loop. -/
def rangeStep (value : PyVal)
    (st : List (String × ℚ) × Option String × Option ℚ)
    (kv : (Int × Int) × ℚ) :
    List (String × ℚ) × Option String × Option ℚ :=
  (dictInsert strEq st.1 (rangeLabel kv.1.1 kv.1.2) kv.2,
   if rangeContains kv.1.1 kv.1.2 value then some (rangeLabel kv.1.1 kv.1.2)
   else st.2.1,
   some kv.2)

/-- The branch chain of `_build_score_detail` that builds the options
dict and the selected option for one fact, together with the value left
in the Python variable `score` by the range loop (None unless the range
loop ran at least once).  `selected_option` starts as the raw stored
value. -/
def optionState (enumById : Nat → List (String × ℚ))
    (rangeById : Nat → List ((Int × Int) × ℚ))
    (fact : Fact) (value : PyVal) :
    List (String × ℚ) × Option String × Option ℚ :=
  if fact.data_type == "boolean" then
    (boolOptions, some (if pyTruthy value then "true" else "false"), none)
  else if fact.fact_type == "enum" then
    (enumById fact.fact_type_id, fact.value, none)
  else if fact.fact_type == "range" then
    (rangeById fact.fact_type_id).foldl (rangeStep value) ([], fact.value, none)
  else ([], fact.value, none)

/-- The sorted options list placed into the detail dict. -/
def detailOptions (options : List (String × ℚ)) (selected : Option String) :
    List OptionEntry :=
  (pySort optKeyLe options).map
    (fun kv => { label := kv.1, value := kv.2, selected := some kv.1 == selected })

/-- The body of the per-fact loop of `_build_score_detail`: coerce the
value, build options and selection, and, when the weight is truthy,
recompute the score (falling back to `float(fact['score'])`, evaluated
eagerly, so a null score column raises) and divide the weighted score by
`full_weight` (raising ZeroDivisionError when it is zero). -/
def processFact (enumById : Nat → List (String × ℚ))
    (rangeById : Nat → List ((Int × Int) × ℚ))
    (fullWeight : ℚ) (fact : Fact) : Except DetailError Detail :=
  match coerceValue fact with
  | .error e => .error e
  | .ok value =>
    let st := optionState enumById rangeById fact value
    if pyTruthyWeight fact.weight then
      match fact.score with
      | none => .error (.scoreNone fact)
      | some fallback =>
        let score := (dictGet st.1 st.2.1).getD fallback
        if fullWeight = 0 then .error (.divByZero fact)
        else .ok { contribution := some (score * fact.weight.getD 0 / fullWeight),
                   score := some score,
                   options := detailOptions st.1 st.2.1 }
    else .ok { contribution := none, score := st.2.2,
               options := detailOptions st.1 st.2.1 }

/-- The loop of `_build_score_detail` over the facts list: each fact is
augmented with its detail; the first exception aborts the request. -/
def attachDetails (enumById : Nat → List (String × ℚ))
    (rangeById : Nat → List ((Int × Int) × ℚ))
    (fullWeight : ℚ) : List Fact → Except DetailError (List Fact)
  | [] => .ok []
  | fact :: rest =>
    match processFact enumById rangeById fullWeight fact with
    | .error e => .error e
    | .ok d =>
      match attachDetails enumById rangeById fullWeight rest with
      | .error e => .error e
      | .ok out => .ok ({ fact with detail := some d } :: out)

/-- Python `fact['weight'] or 0`. -/
def weightOrZero (f : Fact) : ℚ := (f.weight).getD 0

/-- The full weight computed by `_build_score_detail`:
`sum(f['weight'] or 0 for f in facts)`. -/
def fullWeightOf (facts : List Fact) : ℚ := (facts.map weightOrZero).sum

/-- `_build_score_detail` given already-fetched option tables. -/
def buildScoreDetailWith (enumById : Nat → List (String × ℚ))
    (rangeById : Nat → List ((Int × Int) × ℚ))
    (facts : List Fact) : Except DetailError (List Fact) :=
  attachDetails enumById rangeById (fullWeightOf facts) facts

/-- One row of `v1.project_fact_type_enums` as selected by
`_retrieve_fact_options` and by the subqueries of `GET_FACTS_SQL`. -/
structure EnumRow where
  fact_type_id : Nat
  value : String
  score : ℚ
  icon_class : Option String
deriving DecidableEq, Repr

/-- One row of `v1.project_fact_type_ranges`. -/
structure RangeRow where
  fact_type_id : Nat
  min_value : ℚ
  max_value : ℚ
  score : ℚ
deriving DecidableEq, Repr

/-- The enum half of `_retrieve_fact_options`: fact type ids are the set
of enum facts in the list; with no ids no query runs; result rows (in
table order, the query has no ORDER BY) populate a dict from value to
score per fact type id, missing ids defaulting to the empty dict. -/
def buildEnumById (facts : List Fact) (rows : List EnumRow) :
    Nat → List (String × ℚ) :=
  fun i =>
    if facts.any (fun f => f.fact_type == "enum" && f.fact_type_id == i) then
      (rows.filter (fun r => r.fact_type_id == i)).foldl
        (fun acc r => dictInsert strEq acc r.value r.score) []
    else []

/-- The range half of `_retrieve_fact_options`: each row becomes the key
`range(int(min_value), int(max_value))` (bounds truncated toward zero)
mapping to its score, with Python range equality collapsing duplicate
keys. -/
def buildRangeById (facts : List Fact) (rows : List RangeRow) :
    Nat → List ((Int × Int) × ℚ) :=
  fun i =>
    if facts.any (fun f => f.fact_type == "range" && f.fact_type_id == i) then
      (rows.filter (fun r => r.fact_type_id == i)).foldl
        (fun acc r =>
          dictInsert rangeKeyEq acc (truncToInt r.min_value, truncToInt r.max_value) r.score)
        []
    else []

/-- `_retrieve_fact_options`: the pair of option tables. -/
def retrieve_fact_options (facts : List Fact) (enumRows : List EnumRow)
    (rangeRows : List RangeRow) :
    (Nat → List (String × ℚ)) × (Nat → List ((Int × Int) × ℚ)) :=
  (buildEnumById facts enumRows, buildRangeById facts rangeRows)

/-- `_build_score_detail` end to end: fetch the option tables for the
facts, then attach a detail to every fact. -/
def build_score_detail (enumRows : List EnumRow) (rangeRows : List RangeRow)
    (facts : List Fact) : Except DetailError (List Fact) :=
  buildScoreDetailWith (buildEnumById facts enumRows)
    (buildRangeById facts rangeRows) facts

/-- One row of `v1.project_fact_types`. -/
structure FactTypeRow where
  id : Nat
  name : String
  data_type : String
  fact_type : String
  project_type_ids : List Nat
  weight : Option ℚ
  ui_options : Option String
deriving DecidableEq, Repr

/-- One row of `v1.project_facts`. -/
structure ProjectFactRow where
  project_id : Nat
  fact_type_id : Nat
  value : Option String
  recorded_at : Option String
  recorded_by : Option String
deriving DecidableEq, Repr

/-- Strip ASCII whitespace from both ends of a character list. -/
def trimChars (cs : List Char) : List Char :=
  ((cs.dropWhile Char.isWhitespace).reverse.dropWhile Char.isWhitespace).reverse

/-- PostgreSQL text-to-boolean input: trimmed, case-insensitive; accepts
prefixes of true and false, yes and no, on and off, and 1 and 0 (a lone
o is ambiguous and rejected). -/
def pgParseBool (s : String) : Option Bool :=
  let t := String.mk ((trimChars s.data).map Char.toLower)
  if t == "" then none
  else if List.isPrefixOf t.data "true".data || List.isPrefixOf t.data "yes".data
      || t == "on" || t == "1" then some true
  else if (List.isPrefixOf t.data "false".data || List.isPrefixOf t.data "no".data
      || t == "of" || t == "off" || t == "0") then some false
  else none

/-- Round a rational to the nearest integer, halves away from zero
(the rounding PostgreSQL numeric uses). -/
def roundHalfAwayInt (q : ℚ) : Int :=
  if 0 ≤ q then Int.floor (q + 1 / 2) else -Int.floor (-q + 1 / 2)

/-- Round to two decimal places, as the `::numeric(9,2)` casts of
`GET_FACTS_SQL` do. -/
def round2 (q : ℚ) : ℚ := (roundHalfAwayInt (q * 100) : ℚ) / 100

/-- Render a value scaled by 100 as a numeric(9,2) text, two digits
after the point. -/
def renderNumeric2 (n : Int) : String :=
  let sign := if n < 0 then "-" else ""
  let a := n.natAbs
  let fp := a % 100
  sign ++ toString (a / 100) ++ "." ++
    (if fp < 10 then "0" ++ toString fp else toString fp)

/-- The `b.value::numeric(9,2)` cast: parse, round to two places, and
fail on overflow of the 9,2 precision. -/
def pgNumeric92 (s : String) : Option ℚ :=
  (pyFloat (String.mk (trimChars s.data))).bind fun q =>
    let n := roundHalfAwayInt (q * 100)
    if n.natAbs < 1000000000 then some (((n : ℚ)) / 100) else none

/-- The value column CASE of `GET_FACTS_SQL` for a non-null stored
value: boolean, decimal and integer values are cast through the
corresponding PostgreSQL type and re-rendered as text; date and
timestamp normalisation is external formatting and modelled as the
identity; other types pass through.  A cast failure fails the query. -/
def sqlCastValue (dataType : String) (s : String) : Option String :=
  if dataType == "boolean" then
    (pgParseBool s).map (fun b => if b then "true" else "false")
  else if dataType == "decimal" then
    (pgNumeric92 s).map (fun q => renderNumeric2 (roundHalfAwayInt (q * 100)))
  else if dataType == "integer" then
    (pyInt (String.mk (trimChars s.data))).bind fun n =>
      if n < -(2 ^ 31 : Int) || (2 ^ 31 : Int) ≤ n then none else some (toString n)
  else some s

/-- The score column CASE of `GET_FACTS_SQL`: a null stored value scores
0; an enum fact takes the (unique, by table constraint) matching enum
row score, null when absent; a range fact compares the numeric value
with BETWEEN (both bounds inclusive) against the (non-overlapping, by
invariant) range rows, null when absent; a boolean fact scores 100 for
the value "true"; everything else scores 0.  The outer option is query
failure (a bad numeric cast); the inner one is SQL NULL. -/
def sqlScore (a : FactTypeRow) (bValue : Option String)
    (enums : List EnumRow) (ranges : List RangeRow) : Option (Option ℚ) :=
  match bValue with
  | none => some (some 0)
  | some v =>
    if a.fact_type == "enum" then
      some ((enums.find? (fun e => e.fact_type_id == a.id && e.value == v)).map
        (fun e => round2 e.score))
    else if a.fact_type == "range" then
      match pgNumeric92 v with
      | none => none
      | some q =>
        some ((ranges.find? (fun r => r.fact_type_id == a.id &&
            decide (r.min_value ≤ q) && decide (q ≤ r.max_value))).map
          (fun r => round2 r.score))
    else if a.data_type == "boolean" && v == "true" then some (some 100)
    else some (some 0)

/-- The icon_class CASE of `GET_FACTS_SQL`: only enum facts with a
matching enum row get one (the subquery finds no row when the stored
value is null). -/
def sqlIconClass (a : FactTypeRow) (bValue : Option String)
    (enums : List EnumRow) : Option String :=
  if a.fact_type == "enum" then
    match bValue with
    | none => none
    | some v =>
      (enums.find? (fun e => e.fact_type_id == a.id && e.value == v)).bind
        (fun e => e.icon_class)
  else none

/-- One output row of `GET_FACTS_SQL` for fact type `a` joined against
an optional `v1.project_facts` row; `none` is a failed cast failing the
query. -/
def sqlFactRow (a : FactTypeRow) (b : Option ProjectFactRow)
    (enums : List EnumRow) (ranges : List RangeRow) : Option Fact := do
  let bValue : Option String := b.bind (fun r => r.value)
  let value : Option String ←
    match bValue with
    | none => some none
    | some s => (sqlCastValue a.data_type s).map some
  let score ← sqlScore a bValue enums ranges
  pure { fact_type_id := a.id, name := a.name,
         recorded_at := b.bind (fun r => r.recorded_at),
         recorded_by := b.bind (fun r => r.recorded_by),
         value := value, data_type := a.data_type, fact_type := a.fact_type,
         ui_options := a.ui_options, weight := a.weight, score := score,
         icon_class := sqlIconClass a bValue enums, detail := none }

/-- The row produced for a fact type with no stored fact value: the
LEFT JOIN misses, every `b` column is null, the value CASE yields null
and the score CASE yields 0. -/
def nullFactRow (a : FactTypeRow) : Fact :=
  { fact_type_id := a.id, name := a.name, recorded_at := none,
    recorded_by := none, value := none, data_type := a.data_type,
    fact_type := a.fact_type, ui_options := a.ui_options, weight := a.weight,
    score := some 0, icon_class := none, detail := none }

/-- The LEFT JOIN of `GET_FACTS_SQL` for one fact type: one null-padded
row when the project has no stored value for it, otherwise one row per
matching `v1.project_facts` row (at most one, by the table key). -/
def joinRows (projectId : Nat) (a : FactTypeRow)
    (projectFacts : List ProjectFactRow) (enums : List EnumRow)
    (ranges : List RangeRow) : Option (List Fact) :=
  match projectFacts.filter
      (fun b => b.project_id == projectId && b.fact_type_id == a.id) with
  | [] => (sqlFactRow a none enums ranges).map (fun f => [f])
  | bs => bs.mapM (fun b => sqlFactRow a (some b) enums ranges)

/-- Concatenate the join output of a list of fact types, failing the
query when any row fails. -/
def getFactsRowsAux (projectId : Nat) (projectFacts : List ProjectFactRow)
    (enums : List EnumRow) (ranges : List RangeRow) :
    List FactTypeRow → Option (List Fact)
  | [] => some []
  | a :: rest =>
    match joinRows projectId a projectFacts enums ranges,
        getFactsRowsAux projectId projectFacts enums ranges rest with
    | some rs, some out => some (rs ++ out)
    | _, _ => none

/-- `GET_FACTS_SQL` over table states: fact types applicable to the
project type of the project (the WHERE clause), ordered by name, left
joined with the stored fact values of the project.  `none` is a query
failure from a bad cast. -/
def getFactsRows (projectId projectTypeId : Nat)
    (factTypes : List FactTypeRow) (projectFacts : List ProjectFactRow)
    (enums : List EnumRow) (ranges : List RangeRow) : Option (List Fact) :=
  getFactsRowsAux projectId projectFacts enums ranges
    (pySort (fun x y => pyStrLe x.name y.name)
      (factTypes.filter (fun a => a.project_type_ids.contains projectTypeId)))

/-- Action of a notification filter or of the notification default. -/
inductive FilterAction where
  | process
  | ignore
deriving DecidableEq, Repr

/-- One row of `v1.notification_filters`, in stored order. -/
structure NotificationFilter where
  pattern : String
  operation : String
  value : String
  action : FilterAction
deriving DecidableEq, Repr

/-- Modelled from the spec: the supported filter comparisons are string
equality and inequality of the extracted value against the configured
value; an unknown operation is non-matching rather than an error. -/
def opMatches (operation extracted configured : String) : Bool :=
  if operation == "==" then extracted == configured
  else if operation == "!=" then extracted != configured
  else false

/-- A payload, seen through pointer extraction: a slash-delimited
pointer either resolves to a string value or is missing.  The pointer
syntax itself is external to the engine being modelled. -/
def Payload : Type := String → Option String

/-- Modelled from the spec: one filter matches when its pattern resolves
in the payload and the extracted value satisfies (operation, value); a
missing pointer is a non-match, never an error. -/
def filterMatches (payload : Payload) (f : NotificationFilter) : Bool :=
  match payload f.pattern with
  | none => false
  | some v => opMatches f.operation v f.value

/-- Modelled from the spec: the Notification Filter Engine, which is not
part of the provided sources (only its tests are).  Filters are
evaluated in stored order; the first matching filter returns its action
immediately; with no match (including zero filters) the default action
governs. -/
def evalFilters (filters : List NotificationFilter)
    (defaultAction : FilterAction) (payload : Payload) : FilterAction :=
  match filters with
  | [] => defaultAction
  | f :: rest =>
    if filterMatches payload f then f.action
    else evalFilters rest defaultAction payload

/-- One row of `v1.notification_rules`. -/
structure NotificationRule where
  fact_type_id : Nat
  pattern : String
deriving DecidableEq, Repr

/-- The slice of a fact type the dispatcher consults: its applicable
project types. -/
structure FactTypeInfo where
  id : Nat
  project_type_ids : List Nat
deriving DecidableEq, Repr

/-- The project a notification resolves to. -/
structure ProjectRef where
  id : Nat
  project_type_id : Nat
deriving DecidableEq, Repr

/-- A fact value upsert performed by the dispatcher. -/
structure FactWrite where
  project_id : Nat
  fact_type_id : Nat
  value : String
deriving DecidableEq, Repr

/-- Modelled from the spec: the per-rule half of the Fact Update
Dispatcher, which is not part of the provided sources (only its tests
are).  Rules whose fact type is not applicable to the project type of
the resolved project are silently skipped; a missing value pointer
skips the rule without a write; otherwise the filter engine decides and
a process outcome upserts the extracted value. -/
def processRules (proj : ProjectRef) (factTypes : Nat → Option FactTypeInfo)
    (rules : List NotificationRule) (filters : List NotificationFilter)
    (defaultAction : FilterAction) (payload : Payload) : List FactWrite :=
  rules.filterMap fun rule =>
    match factTypes rule.fact_type_id with
    | none => none
    | some ft =>
      if proj.project_type_id ∈ ft.project_type_ids then
        match payload rule.pattern with
        | none => none
        | some v =>
          if evalFilters filters defaultAction payload = .process then
            some { project_id := proj.id, fact_type_id := rule.fact_type_id,
                   value := v }
          else none
      else none

/-- Outcome of posting a notification on a structurally valid
integration and notification path: the HTTP status and the fact
upserts performed. -/
structure NotificationResult where
  status : Nat
  writes : List FactWrite
deriving DecidableEq, Repr

/-- Modelled from the spec: the Fact Update Dispatcher on a valid
notification path, which is not part of the provided sources (only its
tests are).  The external id is extracted at the configured id pattern
and resolved through the registered external identifiers; an
unresolvable id (or an absent id pointer) is an empty no-op success
returning 200, not an error. -/
def dispatchNotification (resolve : String → Option ProjectRef)
    (idPattern : String) (factTypes : Nat → Option FactTypeInfo)
    (rules : List NotificationRule) (filters : List NotificationFilter)
    (defaultAction : FilterAction) (payload : Payload) : NotificationResult :=
  match (payload idPattern).bind resolve with
  | none => { status := 200, writes := [] }
  | some proj =>
    { status := 200,
      writes := processRules proj factTypes rules filters defaultAction payload }

/-! Helper lemmas about the embedding. -/

theorem insertSorted_perm {α : Type} (le : α → α → Bool) (x : α) (l : List α) :
    (insertSorted le x l).Perm (x :: l) := by
  induction l with
  | nil => simp [insertSorted]
  | cons y ys ih =>
    by_cases h : le x y
    · simp [insertSorted, h]
    · simp only [insertSorted, h, Bool.false_eq_true, if_false]
      exact (ih.cons y).trans (List.Perm.swap x y ys)

theorem pySort_perm {α : Type} (le : α → α → Bool) (l : List α) :
    (pySort le l).Perm l := by
  induction l with
  | nil => simp [pySort]
  | cons x xs ih =>
    have : pySort le (x :: xs) = insertSorted le x (pySort le xs) := rfl
    rw [this]
    exact (insertSorted_perm le x (pySort le xs)).trans (ih.cons x)

theorem dictInsert_fresh {κ ν : Type} (eq : κ → κ → Bool) (d : List (κ × ν))
    (k : κ) (v : ν) (h : ∀ kv ∈ d, eq kv.1 k = false) :
    dictInsert eq d k v = d ++ [(k, v)] := by
  induction d with
  | nil => rfl
  | cons kv rest ih =>
    have hkv : eq kv.1 k = false := h kv (by simp)
    simp only [dictInsert, hkv, Bool.false_eq_true, if_false, List.cons_append,
      List.cons.injEq, true_and]
    exact ih (fun kv hm => h kv (by simp [hm]))

theorem dictInsert_mem_keys {κ ν : Type} (eq : κ → κ → Bool)
    (d : List (κ × ν)) (k : κ) (v : ν) (x : κ)
    (hx : x ∈ (dictInsert eq d k v).map Prod.fst) :
    x ∈ d.map Prod.fst ∨ x = k := by
  induction d with
  | nil => simpa [dictInsert] using hx
  | cons kv rest ih =>
    cases h : eq kv.1 k with
    | true =>
      simp only [dictInsert, h, if_true] at hx
      left
      simpa using hx
    | false =>
      simp only [dictInsert, h, Bool.false_eq_true, if_false] at hx
      rcases (by simpa using hx : x = kv.1 ∨ x ∈ (dictInsert eq rest k v).map Prod.fst)
        with h1 | h2
      · exact Or.inl (by simp [h1])
      · rcases ih h2 with h3 | h4
        · exact Or.inl (by simp only [List.map_cons, List.mem_cons]; exact Or.inr h3)
        · exact Or.inr h4

theorem dictInsert_nodup_keys {ν : Type} (d : List (String × ν)) (k : String)
    (v : ν) (h : (d.map Prod.fst).Nodup) :
    ((dictInsert strEq d k v).map Prod.fst).Nodup := by
  induction d with
  | nil => simp [dictInsert]
  | cons kv rest ih =>
    rw [List.map_cons] at h
    rcases List.nodup_cons.mp h with ⟨hk, hrest⟩
    cases he : strEq kv.1 k with
    | true =>
      simp only [dictInsert, he, if_true, List.map_cons]
      exact List.nodup_cons.mpr ⟨hk, hrest⟩
    | false =>
      simp only [dictInsert, he, Bool.false_eq_true, if_false, List.map_cons]
      refine List.nodup_cons.mpr ⟨?_, ih hrest⟩
      intro hmem
      rcases dictInsert_mem_keys strEq rest k v kv.1 hmem with h1 | h2
      · exact hk h1
      · rw [h2] at he
        simp [strEq] at he

theorem foldl_dictInsert_eq_map {κ ν α : Type} (eq : κ → κ → Bool)
    (keyOf : α → κ) (valOf : α → ν) (rows : List α) (acc : List (κ × ν))
    (hfresh : ∀ r ∈ rows, ∀ kv ∈ acc, eq kv.1 (keyOf r) = false)
    (hnd : rows.Pairwise (fun r s => eq (keyOf r) (keyOf s) = false)) :
    rows.foldl (fun a r => dictInsert eq a (keyOf r) (valOf r)) acc =
      acc ++ rows.map (fun r => (keyOf r, valOf r)) := by
  induction rows generalizing acc with
  | nil => simp
  | cons r rest ih =>
    rcases List.pairwise_cons.mp hnd with ⟨hr, hrest⟩
    have h1 : dictInsert eq acc (keyOf r) (valOf r) = acc ++ [(keyOf r, valOf r)] :=
      dictInsert_fresh eq acc (keyOf r) (valOf r)
        (fun kv hkv => hfresh r (by simp) kv hkv)
    simp only [List.foldl_cons, h1]
    rw [ih (acc ++ [(keyOf r, valOf r)])
      (by
        intro s hs kv hkv
        rcases List.mem_append.mp hkv with h2 | h2
        · exact hfresh s (by simp [hs]) kv h2
        · have : kv = (keyOf r, valOf r) := by simpa using h2
          subst this
          exact hr s hs)
      hrest]
    simp

theorem rangeFold_options (value : PyVal) (l : List ((Int × Int) × ℚ))
    (st : List (String × ℚ) × Option String × Option ℚ) :
    (l.foldl (rangeStep value) st).1 =
      l.foldl (fun a kv => dictInsert strEq a (rangeLabel kv.1.1 kv.1.2) kv.2) st.1 := by
  induction l generalizing st with
  | nil => rfl
  | cons kv rest ih => simp only [List.foldl_cons, ih, rangeStep]

theorem rangeFold_selected (value : PyVal) (l : List ((Int × Int) × ℚ))
    (st : List (String × ℚ) × Option String × Option ℚ) :
    (l.foldl (rangeStep value) st).2.1 =
      l.foldl (fun s kv => if rangeContains kv.1.1 kv.1.2 value then
        some (rangeLabel kv.1.1 kv.1.2) else s) st.2.1 := by
  induction l generalizing st with
  | nil => rfl
  | cons kv rest ih => simp only [List.foldl_cons, ih, rangeStep]

theorem rangeFold_leak (value : PyVal) (l : List ((Int × Int) × ℚ))
    (st : List (String × ℚ) × Option String × Option ℚ) :
    (l.foldl (rangeStep value) st).2.2 =
      match l.getLast? with
      | none => st.2.2
      | some kv => some kv.2 := by
  induction l generalizing st with
  | nil => rfl
  | cons kv rest ih =>
    simp only [List.foldl_cons, ih]
    cases h : rest.getLast? with
    | none =>
      have : rest = [] := List.getLast?_eq_none_iff.mp h
      subst this
      rfl
    | some kv2 =>
      have h2 : (kv :: rest).getLast? = some kv2 := by
        cases rest with
        | nil => simp at h
        | cons b bs => rw [List.getLast?_cons_cons]; exact h
      simp [h2]

theorem selFold_cases (value : PyVal) (l : List ((Int × Int) × ℚ))
    (init : Option String) :
    (l.foldl (fun s kv => if rangeContains kv.1.1 kv.1.2 value then
        some (rangeLabel kv.1.1 kv.1.2) else s) init) = init ∨
      ∃ kv ∈ l, rangeContains kv.1.1 kv.1.2 value = true ∧
        (l.foldl (fun s kv => if rangeContains kv.1.1 kv.1.2 value then
          some (rangeLabel kv.1.1 kv.1.2) else s) init) =
          some (rangeLabel kv.1.1 kv.1.2) := by
  induction l generalizing init with
  | nil => exact Or.inl rfl
  | cons kv rest ih =>
    simp only [List.foldl_cons]
    by_cases h : rangeContains kv.1.1 kv.1.2 value
    · simp only [h, if_true]
      rcases ih (some (rangeLabel kv.1.1 kv.1.2)) with h1 | ⟨kv2, hm, hc, he⟩
      · exact Or.inr ⟨kv, by simp, h, h1⟩
      · exact Or.inr ⟨kv2, by simp [hm], hc, he⟩
    · simp only [h, Bool.false_eq_true, if_false]
      rcases ih init with h1 | ⟨kv2, hm, hc, he⟩
      · exact Or.inl h1
      · exact Or.inr ⟨kv2, by simp [hm], hc, he⟩

theorem selFold_nomatch (value : PyVal) (l : List ((Int × Int) × ℚ))
    (init : Option String)
    (h : ∀ kv ∈ l, rangeContains kv.1.1 kv.1.2 value = false) :
    (l.foldl (fun s kv => if rangeContains kv.1.1 kv.1.2 value then
        some (rangeLabel kv.1.1 kv.1.2) else s) init) = init := by
  induction l generalizing init with
  | nil => rfl
  | cons kv rest ih =>
    simp only [List.foldl_cons, h kv (by simp), Bool.false_eq_true, if_false]
    exact ih init (fun kv hm => h kv (by simp [hm]))

theorem coerceValue_error (fact : Fact) (ε : DetailError)
    (h : coerceValue fact = .error ε) : ε = .coercion fact := by
  unfold coerceValue at h
  split at h
  · split at h <;> simp_all
  · split at h
    · split at h <;> simp_all
    · split at h
      · split at h <;> simp_all
      · split at h <;> simp_all

theorem processFact_ok_coerce (e : Nat → List (String × ℚ))
    (r : Nat → List ((Int × Int) × ℚ)) (W : ℚ) (fact : Fact) (d : Detail)
    (h : processFact e r W fact = .ok d) : ∃ v, coerceValue fact = .ok v := by
  unfold processFact at h
  cases hv : coerceValue fact with
  | error ε => rw [hv] at h; cases h
  | ok v => exact ⟨v, rfl⟩

theorem processFact_weightless (e : Nat → List (String × ℚ))
    (r : Nat → List ((Int × Int) × ℚ)) (W : ℚ) (fact : Fact) (v : PyVal)
    (hv : coerceValue fact = .ok v) (hw : pyTruthyWeight fact.weight = false) :
    processFact e r W fact = .ok
      { contribution := none,
        score := (optionState e r fact v).2.2,
        options := detailOptions (optionState e r fact v).1
          (optionState e r fact v).2.1 } := by
  unfold processFact
  rw [hv]
  simp [hw]

theorem processFact_weighted (e : Nat → List (String × ℚ))
    (r : Nat → List ((Int × Int) × ℚ)) (W : ℚ) (fact : Fact) (v : PyVal)
    (fb : ℚ) (hv : coerceValue fact = .ok v)
    (hw : pyTruthyWeight fact.weight = true)
    (hs : fact.score = some fb) (hW : W ≠ 0) :
    processFact e r W fact = .ok
      { contribution := some
          (((dictGet (optionState e r fact v).1
              (optionState e r fact v).2.1).getD fb) * fact.weight.getD 0 / W),
        score := some ((dictGet (optionState e r fact v).1
          (optionState e r fact v).2.1).getD fb),
        options := detailOptions (optionState e r fact v).1
          (optionState e r fact v).2.1 } := by
  unfold processFact
  rw [hv]
  simp [hw, hs, hW]

theorem processFact_error_shape (e : Nat → List (String × ℚ))
    (r : Nat → List ((Int × Int) × ℚ)) (W : ℚ) (fact : Fact) (ε : DetailError)
    (h : processFact e r W fact = .error ε) :
    ε = .coercion fact ∨ (pyTruthyWeight fact.weight = true ∧
      (ε = .scoreNone fact ∨ (W = 0 ∧ ε = .divByZero fact))) := by
  unfold processFact at h
  cases hv : coerceValue fact with
  | error ε2 =>
    rw [hv] at h
    cases h
    exact Or.inl (coerceValue_error fact ε hv)
  | ok v =>
    rw [hv] at h
    simp only at h
    cases hw : pyTruthyWeight fact.weight with
    | false => simp [hw] at h
    | true =>
      simp only [hw, if_true] at h
      cases hs : fact.score with
      | none => rw [hs] at h; cases h; exact Or.inr ⟨rfl, Or.inl rfl⟩
      | some fb =>
        rw [hs] at h
        simp only at h
        by_cases hW : W = 0
        · rw [if_pos hW] at h
          cases h
          exact Or.inr ⟨rfl, Or.inr ⟨hW, rfl⟩⟩
        · rw [if_neg hW] at h
          cases h

theorem attachDetails_length (e : Nat → List (String × ℚ))
    (r : Nat → List ((Int × Int) × ℚ)) (W : ℚ) (l res : List Fact)
    (h : attachDetails e r W l = .ok res) : res.length = l.length := by
  induction l generalizing res with
  | nil =>
    unfold attachDetails at h
    cases h
    rfl
  | cons f t ih =>
    unfold attachDetails at h
    split at h
    · cases h
    · split at h
      · cases h
      · cases h
        simp [ih _ (by assumption)]

theorem attachDetails_get (e : Nat → List (String × ℚ))
    (r : Nat → List ((Int × Int) × ℚ)) (W : ℚ) (l res : List Fact)
    (h : attachDetails e r W l = .ok res) (i : Nat) (hi : i < l.length)
    (hi' : i < res.length) :
    ∃ d, processFact e r W (l.get ⟨i, hi⟩) = .ok d ∧
      res.get ⟨i, hi'⟩ = { l.get ⟨i, hi⟩ with detail := some d } := by
  induction l generalizing res i with
  | nil => simp at hi
  | cons f t ih =>
    unfold attachDetails at h
    split at h
    · cases h
    · split at h
      · cases h
      · cases h
        cases i with
        | zero =>
          refine ⟨_, by assumption, ?_⟩
          rfl
        | succ j =>
          exact ih _ (by assumption) j (by simpa using hi) (by simpa using hi')

theorem attachDetails_mem (e : Nat → List (String × ℚ))
    (r : Nat → List ((Int × Int) × ℚ)) (W : ℚ) (l res : List Fact)
    (h : attachDetails e r W l = .ok res) (f : Fact) (hf : f ∈ l) :
    ∃ d, processFact e r W f = .ok d ∧ { f with detail := some d } ∈ res := by
  induction l generalizing res with
  | nil => simp at hf
  | cons g t ih =>
    unfold attachDetails at h
    split at h
    · cases h
    · split at h
      · cases h
      · cases h
        rcases List.mem_cons.mp hf with rfl | hf'
        · exact ⟨_, by assumption, by simp⟩
        · rcases ih _ (by assumption) hf' with ⟨d, hd, hm⟩
          exact ⟨d, hd, by simp [hm]⟩

theorem sum_zero_of_nonneg (l : List ℚ) (h0 : ∀ x ∈ l, 0 ≤ x)
    (hs : l.sum = 0) : ∀ x ∈ l, x = 0 := by
  induction l with
  | nil => simp
  | cons a t ih =>
    have ha : 0 ≤ a := h0 a (by simp)
    have ht : 0 ≤ t.sum := List.sum_nonneg (fun x hx => h0 x (by simp [hx]))
    rw [List.sum_cons] at hs
    have ha0 : a = 0 := by linarith
    have ht0 : t.sum = 0 := by linarith
    intro x hx
    rcases List.mem_cons.mp hx with rfl | hx'
    · exact ha0
    · exact ih (fun y hy => h0 y (by simp [hy])) ht0 x hx'

theorem countP_selected_le_one {ν : Type} (l : List (String × ν))
    (sel : Option String) (h : (l.map Prod.fst).Nodup) :
    (l.countP (fun kv => some kv.1 == sel)) ≤ 1 := by
  induction l with
  | nil => simp
  | cons kv t ih =>
    rw [List.map_cons] at h
    rcases List.nodup_cons.mp h with ⟨hk, ht⟩
    rw [List.countP_cons]
    by_cases hc : (some kv.1 == sel) = true
    · have hsel : sel = some kv.1 := by
        cases sel with
        | none => simp at hc
        | some s =>
          have : kv.1 = s := by simpa using hc
          simp [this]
      have hz : t.countP (fun kv2 => some kv2.1 == sel) = 0 := by
        rw [List.countP_eq_zero]
        intro kv2 hkv2
        rw [hsel]
        intro hbeq
        have : kv2.1 = kv.1 := by simpa using hbeq
        exact hk (by
          rw [← this]
          exact List.mem_map_of_mem Prod.fst hkv2)
      rw [hz]
      simp [hc]
    · have : ((fun kv => some kv.1 == sel) kv = true) ↔ False := by simp [hc]
      rw [if_neg (by simpa using hc)]
      simpa using ih ht

theorem getFactsRowsAux_mem (pid : Nat) (pf : List ProjectFactRow)
    (enums : List EnumRow) (ranges : List RangeRow) (l : List FactTypeRow)
    (rows : List Fact) (a : FactTypeRow)
    (h : getFactsRowsAux pid pf enums ranges l = some rows) (ha : a ∈ l)
    (rs : List Fact) (hj : joinRows pid a pf enums ranges = some rs) :
    ∀ f ∈ rs, f ∈ rows := by
  induction l generalizing rows with
  | nil => simp at ha
  | cons b t ih =>
    unfold getFactsRowsAux at h
    cases hjb : joinRows pid b pf enums ranges with
    | none => rw [hjb] at h; simp at h
    | some rs2 =>
      cases haux : getFactsRowsAux pid pf enums ranges t with
      | none => rw [hjb, haux] at h; simp at h
      | some out =>
        rw [hjb, haux] at h
        have hrows : rs2 ++ out = rows := by simpa using h
        intro f hf
        rcases List.mem_cons.mp ha with rfl | ha'
        · have hrs : rs = rs2 := by
            rw [hj] at hjb
            exact Option.some.inj hjb
          rw [← hrows]
          exact List.mem_append.mpr (Or.inl (hrs ▸ hf))
        · rw [← hrows]
          exact List.mem_append.mpr (Or.inr (ih out haux ha' f hf))

theorem joinRows_nullRow (pid : Nat) (a : FactTypeRow)
    (pf : List ProjectFactRow) (enums : List EnumRow) (ranges : List RangeRow)
    (h : ∀ b ∈ pf, ¬(b.project_id = pid ∧ b.fact_type_id = a.id)) :
    joinRows pid a pf enums ranges = some [nullFactRow a] := by
  have hf : pf.filter
      (fun b => b.project_id == pid && b.fact_type_id == a.id) = [] := by
    rw [List.filter_eq_nil_iff]
    intro b hb
    have := h b hb
    simp only [Bool.and_eq_true, beq_iff_eq]
    intro hc
    exact this ⟨hc.1, hc.2⟩
  unfold joinRows
  rw [hf]
  simp [sqlFactRow, sqlScore, sqlIconClass, nullFactRow, Option.bind]

theorem pyFloat_zero_default : pyFloat "0.0" = some 0 := by
  with_unfolding_all decide

theorem pyInt_zero_default : pyInt "0" = some 0 := by decide

theorem coerceValue_bool_none (fact : Fact) (hval : fact.value = none)
    (hdt : fact.data_type = "boolean") :
    coerceValue fact = .error (.coercion fact) := by
  unfold coerceValue
  rw [hval]
  simp [hdt]

theorem coerceValue_none_ok (fact : Fact) (hval : fact.value = none)
    (hdt : fact.data_type ≠ "boolean") :
    coerceValue fact = .ok (if fact.data_type == "decimal" then .vnum 0
      else if fact.data_type == "integer" then .vnum 0 else .vnone) := by
  unfold coerceValue
  rw [hval]
  have hb : (fact.data_type == "boolean") = false := by
    simpa using hdt
  rw [hb]
  simp only [Bool.false_eq_true, if_false]
  by_cases hd : fact.data_type = "decimal"
  · simp [hd, pyOrDefault, pyFloat_zero_default]
  · have hd' : (fact.data_type == "decimal") = false := by simpa using hd
    rw [hd']
    simp only [Bool.false_eq_true, if_false]
    by_cases hi : fact.data_type = "integer"
    · simp [hi, pyOrDefault, pyInt_zero_default]
    · have hi' : (fact.data_type == "integer") = false := by simpa using hi
      rw [hi']
      simp

theorem processFact_null_ok (e : Nat → List (String × ℚ))
    (r : Nat → List ((Int × Int) × ℚ)) (W : ℚ) (fact : Fact)
    (hval : fact.value = none) (hdt : fact.data_type ≠ "boolean")
    (hsc : ∃ q, fact.score = some q)
    (hW : pyTruthyWeight fact.weight = true → W ≠ 0) :
    ∃ d, processFact e r W fact = .ok d := by
  obtain ⟨q, hq⟩ := hsc
  cases hw : pyTruthyWeight fact.weight with
  | false =>
    exact ⟨_, processFact_weightless e r W fact _
      (coerceValue_none_ok fact hval hdt) hw⟩
  | true =>
    exact ⟨_, processFact_weighted e r W fact _ q
      (coerceValue_none_ok fact hval hdt) hw hq (hW hw)⟩

theorem optionState_bool (e : Nat → List (String × ℚ))
    (r : Nat → List ((Int × Int) × ℚ)) (fact : Fact) (v : PyVal)
    (hdt : fact.data_type = "boolean") :
    optionState e r fact v =
      (boolOptions, some (if pyTruthy v then "true" else "false"), none) := by
  unfold optionState
  simp [hdt]

theorem optionState_enum (e : Nat → List (String × ℚ))
    (r : Nat → List ((Int × Int) × ℚ)) (fact : Fact) (v : PyVal)
    (hdt : fact.data_type ≠ "boolean") (hft : fact.fact_type = "enum") :
    optionState e r fact v = (e fact.fact_type_id, fact.value, none) := by
  unfold optionState
  have h1 : (fact.data_type == "boolean") = false := by simpa using hdt
  rw [h1]
  simp [hft]

theorem optionState_range (e : Nat → List (String × ℚ))
    (r : Nat → List ((Int × Int) × ℚ)) (fact : Fact) (v : PyVal)
    (hdt : fact.data_type ≠ "boolean") (hfe : fact.fact_type ≠ "enum")
    (hft : fact.fact_type = "range") :
    optionState e r fact v =
      (r fact.fact_type_id).foldl (rangeStep v) ([], fact.value, none) := by
  unfold optionState
  have h1 : (fact.data_type == "boolean") = false := by simpa using hdt
  have h2 : (fact.fact_type == "enum") = false := by simpa using hfe
  rw [h1]
  simp [h2, hft]

theorem optionState_plain (e : Nat → List (String × ℚ))
    (r : Nat → List ((Int × Int) × ℚ)) (fact : Fact) (v : PyVal)
    (hdt : fact.data_type ≠ "boolean") (hfe : fact.fact_type ≠ "enum")
    (hfr : fact.fact_type ≠ "range") :
    optionState e r fact v = ([], fact.value, none) := by
  unfold optionState
  have h1 : (fact.data_type == "boolean") = false := by simpa using hdt
  have h2 : (fact.fact_type == "enum") = false := by simpa using hfe
  have h3 : (fact.fact_type == "range") = false := by simpa using hfr
  rw [h1]
  simp [h2, h3]

theorem buildEnumById_eq_map (facts : List Fact) (rows : List EnumRow)
    (i : Nat) (f : Fact) (hf : f ∈ facts) (hft : f.fact_type = "enum")
    (hid : f.fact_type_id = i)
    (hnd : ((rows.filter (fun e2 => e2.fact_type_id == i)).map
      (fun e2 => e2.value)).Nodup) :
    buildEnumById facts rows i =
      (rows.filter (fun e2 => e2.fact_type_id == i)).map
        (fun e2 => (e2.value, e2.score)) := by
  unfold buildEnumById
  rw [if_pos (List.any_eq_true.mpr ⟨f, hf, by simp [hft, hid]⟩)]
  exact foldl_dictInsert_eq_map strEq (fun e2 : EnumRow => e2.value)
    (fun e2 : EnumRow => e2.score) _ [] (by simp)
    (by
      refine List.Pairwise.imp ?_ (List.pairwise_map.mp hnd)
      intro a b hab
      simp only [strEq, beq_eq_false_iff_ne, ne_eq]
      exact hab)

theorem attachDetails_error (e : Nat → List (String × ℚ))
    (r : Nat → List ((Int × Int) × ℚ)) (W : ℚ) (l : List Fact)
    (ε : DetailError) (h : attachDetails e r W l = .error ε) :
    ∃ f ∈ l, processFact e r W f = .error ε := by
  induction l with
  | nil => cases h
  | cons f t ih =>
    unfold attachDetails at h
    split at h
    · cases h
      exact ⟨f, by simp, by assumption⟩
    · split at h
      · cases h
        rcases ih (by assumption) with ⟨g, hg, hge⟩
        exact ⟨g, by simp [hg], hge⟩
      · cases h

theorem attachDetails_mem_res (e : Nat → List (String × ℚ))
    (r : Nat → List ((Int × Int) × ℚ)) (W : ℚ) (l res : List Fact)
    (h : attachDetails e r W l = .ok res) (g : Fact) (hg : g ∈ res) :
    ∃ f ∈ l, ∃ d, processFact e r W f = .ok d ∧
      g = { f with detail := some d } := by
  induction l generalizing res with
  | nil =>
    unfold attachDetails at h
    cases h
    simp at hg
  | cons f t ih =>
    unfold attachDetails at h
    split at h
    · cases h
    · split at h
      · cases h
      · cases h
        rcases List.mem_cons.mp hg with rfl | hg'
        · exact ⟨f, by simp, _, by assumption, rfl⟩
        · rcases ih _ (by assumption) hg' with ⟨f2, hf2, d2, hd2, hgd⟩
          exact ⟨f2, by simp [hf2], d2, hd2, hgd⟩

theorem pyTruthyWeight_false_of_zero (f : Fact) (h : weightOrZero f = 0) :
    pyTruthyWeight f.weight = false := by
  cases hw : f.weight with
  | none => rfl
  | some w =>
    unfold weightOrZero at h
    rw [hw] at h
    simp only [Option.getD_some] at h
    simp [pyTruthyWeight, h]

theorem buildRangeById_eq_map (facts : List Fact) (rows : List RangeRow)
    (i : Nat) (f : Fact) (hf : f ∈ facts) (hft : f.fact_type = "range")
    (hid : f.fact_type_id = i)
    (hknd : (rows.filter (fun r2 => r2.fact_type_id == i)).Pairwise
      (fun r2 s2 => rangeKeyEq
        (truncToInt r2.min_value, truncToInt r2.max_value)
        (truncToInt s2.min_value, truncToInt s2.max_value) = false)) :
    buildRangeById facts rows i =
      (rows.filter (fun r2 => r2.fact_type_id == i)).map
        (fun r2 => ((truncToInt r2.min_value, truncToInt r2.max_value),
          r2.score)) := by
  unfold buildRangeById
  rw [if_pos (List.any_eq_true.mpr ⟨f, hf, by simp [hft, hid]⟩)]
  exact foldl_dictInsert_eq_map rangeKeyEq
    (fun r2 : RangeRow => (truncToInt r2.min_value, truncToInt r2.max_value))
    (fun r2 : RangeRow => r2.score) _ [] (by simp) hknd

theorem processFact_ok_options (e : Nat → List (String × ℚ))
    (r : Nat → List ((Int × Int) × ℚ)) (W : ℚ) (fact : Fact) (d : Detail)
    (v : PyVal) (hv : coerceValue fact = .ok v)
    (hd : processFact e r W fact = .ok d) :
    d.options = detailOptions (optionState e r fact v).1
      (optionState e r fact v).2.1 := by
  cases hw : pyTruthyWeight fact.weight with
  | false =>
    have hpf := processFact_weightless e r W fact v hv hw
    rw [hd] at hpf
    rw [Except.ok.inj hpf]
  | true =>
    cases hs : fact.score with
    | none =>
      exfalso
      have herr : processFact e r W fact = .error (.scoreNone fact) := by
        unfold processFact
        rw [hv]
        simp [hw, hs]
      rw [hd] at herr
      cases herr
    | some fb =>
      by_cases hW : W = 0
      · exfalso
        have herr : processFact e r W fact = .error (.divByZero fact) := by
          unfold processFact
          rw [hv]
          simp [hw, hs, hW]
        rw [hd] at herr
        cases herr
      · have hpf := processFact_weighted e r W fact v fb hv hw hs hW
        rw [hd] at hpf
        rw [Except.ok.inj hpf]

theorem detailOptions_map_label_value (options : List (String × ℚ))
    (sel : Option String) :
    (detailOptions options sel).map (fun o => (o.label, o.value)) =
      pySort optKeyLe options := by
  unfold detailOptions
  rw [List.map_map]
  have hfun : ((fun o : OptionEntry => (o.label, o.value)) ∘
      fun kv : String × ℚ => OptionEntry.mk kv.1 kv.2 (some kv.1 == sel)) =
      fun kv : String × ℚ => kv := by
    funext kv
    rfl
  rw [hfun, List.map_id']

theorem detailOptions_countP_selected (options : List (String × ℚ))
    (sel : Option String) :
    (detailOptions options sel).countP (fun o => o.selected) =
      options.countP (fun kv => some kv.1 == sel) := by
  unfold detailOptions
  rw [List.countP_map]
  rw [(pySort_perm optKeyLe options).countP_eq]
  rfl

theorem detailOptions_mem (options : List (String × ℚ)) (sel : Option String)
    (o : OptionEntry) (ho : o ∈ detailOptions options sel) :
    ∃ kv ∈ options,
      o = { label := kv.1, value := kv.2, selected := some kv.1 == sel } := by
  unfold detailOptions at ho
  rcases List.mem_map.mp ho with ⟨kv, hkv, hkve⟩
  exact ⟨kv, (pySort_perm optKeyLe options).mem_iff.mp hkv, hkve.symm⟩

/-! The claims. -/

/-- C1: for every ordered list of notification filters, default action,
and payload: the filters are evaluated in stored order; a filter whose
pattern is missing from the payload is a non-match, never an error; the
first filter whose extracted value satisfies (operation, value)
determines the returned action, with the remaining filters skipped; and
if no filter matches (including the zero-filter case), the default
action is returned.  The fourth conjunct packages the first-match-wins
order as agreement with the first satisfying filter of the stored
list. -/
theorem C1_filter_first_match (fs : List NotificationFilter)
    (d : FilterAction) (p : Payload) :
    (evalFilters [] d p = d) ∧
    (∀ f rest, p f.pattern = none →
      evalFilters (f :: rest) d p = evalFilters rest d p) ∧
    (∀ f rest, filterMatches p f = true →
      evalFilters (f :: rest) d p = f.action) ∧
    (evalFilters fs d p =
      ((fs.find? (filterMatches p)).map NotificationFilter.action).getD d) := by
  refine ⟨rfl, ?_, ?_, ?_⟩
  · intro f rest hm
    simp [evalFilters, filterMatches, hm]
  · intro f rest hm
    simp [evalFilters, hm]
  · induction fs with
    | nil => rfl
    | cons f rest ih =>
      cases hm : filterMatches p f with
      | true => simp [evalFilters, hm, List.find?_cons_of_pos]
      | false =>
        rw [List.find?_cons_of_neg _ (by simp [hm])]
        simpa [evalFilters, hm] using ih

/-- The filter of the worked example in the spec:
pattern /test, operation ==, value true, action ignore. -/
def exFilter : NotificationFilter :=
  { pattern := "/test", operation := "==", value := "true", action := .ignore }

/-- Payload with /test extracting to true. -/
def exPayloadTrue : Payload :=
  fun s => if s == "/test" then some "true" else none

/-- Payload with /test extracting to false. -/
def exPayloadFalse : Payload :=
  fun s => if s == "/test" then some "false" else none

/-- Payload with no /test pointer at all. -/
def exPayloadEmpty : Payload := fun _ => none

theorem C1_filter_first_match_witness :
    evalFilters [exFilter] .process exPayloadTrue = .ignore ∧
    evalFilters [exFilter] .process exPayloadFalse = .process ∧
    evalFilters [exFilter] .process exPayloadEmpty = .process := by
  refine ⟨?_, ?_, ?_⟩
  · have h := (C1_filter_first_match [exFilter] .process exPayloadTrue).2.2.1
      exFilter [] (by decide)
    simpa [exFilter] using h
  · have h := (C1_filter_first_match [exFilter] .process exPayloadFalse).2.2.2
    simpa [exFilter, exPayloadFalse, filterMatches, opMatches] using h
  · have h2 := (C1_filter_first_match [exFilter] .process exPayloadEmpty).2.1
      exFilter [] (by decide)
    have h1 := (C1_filter_first_match [] .process exPayloadEmpty).1
    rw [h2, h1]

/-- C8: for every inbound notification, only notification rules whose
fact type is applicable to the resolved project via its project type
produce a write; rules tied to fact types of a different project type
are silently skipped and never write a fact value for that project,
even when the external identifier and pattern match. -/
theorem C8_cross_project_type_isolation (proj : ProjectRef)
    (factTypes : Nat → Option FactTypeInfo) (rules : List NotificationRule)
    (filters : List NotificationFilter) (d : FilterAction) (p : Payload)
    (idPattern : String) (resolve : String → Option ProjectRef)
    (hres : (p idPattern).bind resolve = some proj) :
    ∀ w ∈ (dispatchNotification resolve idPattern factTypes rules filters
        d p).writes,
      ∃ ft, factTypes w.fact_type_id = some ft ∧
        proj.project_type_id ∈ ft.project_type_ids := by
  intro w hw
  unfold dispatchNotification at hw
  rw [hres] at hw
  simp only at hw
  unfold processRules at hw
  rcases List.mem_filterMap.mp hw with ⟨rule, _hrule, hmap⟩
  cases hft : factTypes rule.fact_type_id with
  | none => rw [hft] at hmap; cases hmap
  | some ft =>
    rw [hft] at hmap
    simp only at hmap
    by_cases hin : proj.project_type_id ∈ ft.project_type_ids
    · rw [if_pos hin] at hmap
      cases hp : p rule.pattern with
      | none => rw [hp] at hmap; cases hmap
      | some v =>
        rw [hp] at hmap
        simp only at hmap
        by_cases hact : evalFilters filters d p = .process
        · rw [if_pos hact] at hmap
          have hwft : w.fact_type_id = rule.fact_type_id := by
            cases hmap
            rfl
          exact ⟨ft, by rw [hwft]; exact hft, hin⟩
        · rw [if_neg hact] at hmap; cases hmap
    · rw [if_neg hin] at hmap; cases hmap

/-- The project of type 2 used for the isolation witness. -/
def exProjectTypeTwo : ProjectRef := { id := 7, project_type_id := 2 }

/-- Fact type 1 is only applicable to project type 1. -/
def exFactTypes : Nat → Option FactTypeInfo :=
  fun i => if i == 1 then some { id := 1, project_type_ids := [1] } else none

/-- The single rule of the test scenario, recording /state into fact
type 1. -/
def exRule : NotificationRule := { fact_type_id := 1, pattern := "/state" }

/-- Payload of the isolation test: id, environment and state present. -/
def exPayloadIso : Payload :=
  fun s => if s == "/id" then some "xyz"
    else if s == "/environment" then some "production"
    else if s == "/state" then some "matched" else none

/-- Identifier resolution of the isolation test: the external id
resolves to the project of the other project type. -/
def exResolveIso : String → Option ProjectRef :=
  fun s => if s == "xyz" then some exProjectTypeTwo else none

/-- A project of the matching project type 1, for the C8 witness. -/
def exProjectTypeOne : ProjectRef := { id := 8, project_type_id := 1 }

/-- Identifier resolution to the matching-type project. -/
def exResolveOne : String → Option ProjectRef :=
  fun s => if s == "xyz" then some exProjectTypeOne else none

/-- The fact write performed in the C8 witness scenario. -/
def exWrite : FactWrite :=
  { project_id := 8, fact_type_id := 1, value := "matched" }

theorem C8_cross_project_type_isolation_witness :
    ∃ ft, exFactTypes exWrite.fact_type_id = some ft ∧
      exProjectTypeOne.project_type_id ∈ ft.project_type_ids :=
  C8_cross_project_type_isolation exProjectTypeOne exFactTypes [exRule]
    [] .process exPayloadIso "/id" exResolveOne (by decide) exWrite
    (by decide)

/-- C9: for every notification posted to a structurally valid
integration and notification path, an unresolvable external identifier
in the payload (including an empty payload with no identifier at all)
and a missing value pointer are not errors: the request completes as an
empty no-op success (200) with no fact mutation. -/
theorem C9_unresolvable_noop (resolve : String → Option ProjectRef)
    (idPattern : String) (factTypes : Nat → Option FactTypeInfo)
    (rules : List NotificationRule) (filters : List NotificationFilter)
    (d : FilterAction) (p : Payload) :
    ((dispatchNotification resolve idPattern factTypes rules filters
      d p).status = 200) ∧
    ((p idPattern).bind resolve = none →
      dispatchNotification resolve idPattern factTypes rules filters d p =
        { status := 200, writes := [] }) ∧
    ((∀ rule ∈ rules, p rule.pattern = none) →
      (dispatchNotification resolve idPattern factTypes rules filters
        d p).writes = []) := by
  refine ⟨?_, ?_, ?_⟩
  · unfold dispatchNotification
    cases (p idPattern).bind resolve <;> rfl
  · intro h
    unfold dispatchNotification
    rw [h]
  · intro h
    unfold dispatchNotification
    cases hres : (p idPattern).bind resolve with
    | none => rfl
    | some proj =>
      simp only
      unfold processRules
      rw [List.filterMap_eq_nil_iff]
      intro rule hrule
      cases hft : factTypes rule.fact_type_id with
      | none => rfl
      | some ft =>
        simp only
        by_cases hin : proj.project_type_id ∈ ft.project_type_ids
        · rw [if_pos hin, h rule hrule]
        · rw [if_neg hin]

theorem C9_unresolvable_noop_witness :
    dispatchNotification exResolveIso "/id" exFactTypes [exRule] []
        .process exPayloadEmpty =
      { status := 200, writes := [] } :=
  (C9_unresolvable_noop exResolveIso "/id" exFactTypes [exRule] []
    .process exPayloadEmpty).2.1 (by decide)

/-- An enum fact without a weight, whose stored value has enum score
75. -/
def c2Fact : Fact :=
  { fact_type_id := 1, name := "color", recorded_at := none,
    recorded_by := none, value := some "red", data_type := "string",
    fact_type := "enum", ui_options := none, weight := none,
    score := some 50, icon_class := none, detail := none }

/-- Enum table row scoring value "red" at 75 for fact type 1. -/
def c2EnumRow : EnumRow :=
  { fact_type_id := 1, value := "red", score := 75, icon_class := none }

/-- C2 counterexample: for an enum fact whose stored value "red" is in
the enum table with score 75 but whose weight is null, the score-detail
computation leaves the detail score null instead of the enum table
score, refuting the claim as universally stated over enum facts. -/
theorem C2_counterexample :
    build_score_detail [c2EnumRow] [] [c2Fact] =
      .ok [{ c2Fact with
             detail := some { contribution := none, score := none,
                              options := [{ label := "red", value := 75,
                                            selected := true }] } }] ∧
    c2EnumRow.fact_type_id = c2Fact.fact_type_id ∧
    c2EnumRow.value = "red" ∧ c2Fact.value = some "red" ∧
    c2EnumRow.score = 75 ∧ (none : Option ℚ) ≠ some 75 := by
  refine ⟨by with_unfolding_all rfl, rfl, rfl, rfl, rfl, by simp⟩

/-- C2 (amended): for enum facts (with non-boolean data type, since the
boolean branch takes precedence) the option table is the enum table of
the fact type (given the per-fact-type uniqueness of enum values the
data model guarantees), the selected flag marks exactly the stored
value, and, when the weight is truthy, the recomputed detail score is
the enum table lookup of the stored value with the persisted score
column as fallback; when the weight is null or zero the detail score is
null instead (see C5). -/
theorem C2_enum_score_detail (facts : List Fact) (enumRows : List EnumRow)
    (rangeRows : List RangeRow) (res : List Fact) (i : Nat)
    (hi : i < facts.length) (hi' : i < res.length)
    (hok : build_score_detail enumRows rangeRows facts = .ok res)
    (hdt : (facts.get ⟨i, hi⟩).data_type ≠ "boolean")
    (hft : (facts.get ⟨i, hi⟩).fact_type = "enum")
    (hnd : ((enumRows.filter (fun e2 => e2.fact_type_id ==
      (facts.get ⟨i, hi⟩).fact_type_id)).map (fun e2 => e2.value)).Nodup) :
    ∃ d, res.get ⟨i, hi'⟩ = { facts.get ⟨i, hi⟩ with detail := some d } ∧
      buildEnumById facts enumRows (facts.get ⟨i, hi⟩).fact_type_id =
        (enumRows.filter (fun e2 => e2.fact_type_id ==
          (facts.get ⟨i, hi⟩).fact_type_id)).map
          (fun e2 => (e2.value, e2.score)) ∧
      d.options.Perm ((buildEnumById facts enumRows
          (facts.get ⟨i, hi⟩).fact_type_id).map
        (fun kv => { label := kv.1, value := kv.2,
                     selected := some kv.1 == (facts.get ⟨i, hi⟩).value })) ∧
      (pyTruthyWeight (facts.get ⟨i, hi⟩).weight = true →
        ∃ fb, (facts.get ⟨i, hi⟩).score = some fb ∧
          d.score = some ((dictGet (buildEnumById facts enumRows
            (facts.get ⟨i, hi⟩).fact_type_id)
            (facts.get ⟨i, hi⟩).value).getD fb)) ∧
      (pyTruthyWeight (facts.get ⟨i, hi⟩).weight = false → d.score = none) := by
  set f := facts.get ⟨i, hi⟩ with hfdef
  unfold build_score_detail buildScoreDetailWith at hok
  obtain ⟨d, hd, hres⟩ := attachDetails_get _ _ _ facts res hok i hi hi'
  rw [← hfdef] at hd hres
  obtain ⟨v, hv⟩ := processFact_ok_coerce _ _ _ _ _ hd
  have hstate := optionState_enum (buildEnumById facts enumRows)
    (buildRangeById facts rangeRows) f v hdt hft
  have htable := buildEnumById_eq_map facts enumRows f.fact_type_id f
    (hfdef ▸ List.get_mem facts i hi) hft rfl hnd
  cases hw : pyTruthyWeight f.weight with
  | false =>
    have hpf := processFact_weightless (buildEnumById facts enumRows)
      (buildRangeById facts rangeRows) (fullWeightOf facts) f v hv hw
    rw [hd] at hpf
    have hdval := Except.ok.inj hpf
    refine ⟨d, hres, htable, ?_, ?_, ?_⟩
    · rw [hdval, hstate]
      exact (pySort_perm optKeyLe _).map _
    · intro habs
      exact Bool.noConfusion habs
    · intro _
      rw [hdval, hstate]
  | true =>
    cases hs : f.score with
    | none =>
      exfalso
      have herr : processFact (buildEnumById facts enumRows)
          (buildRangeById facts rangeRows) (fullWeightOf facts) f =
          .error (.scoreNone f) := by
        unfold processFact
        rw [hv]
        simp [hw, hs]
      rw [hd] at herr
      cases herr
    | some fb =>
      by_cases hW : fullWeightOf facts = 0
      · exfalso
        have herr : processFact (buildEnumById facts enumRows)
            (buildRangeById facts rangeRows) (fullWeightOf facts) f =
            .error (.divByZero f) := by
          unfold processFact
          rw [hv]
          simp [hw, hs, hW]
        rw [hd] at herr
        cases herr
      · have hpf := processFact_weighted (buildEnumById facts enumRows)
          (buildRangeById facts rangeRows) (fullWeightOf facts) f v fb hv hw
          hs hW
        rw [hd] at hpf
        have hdval := Except.ok.inj hpf
        refine ⟨d, hres, htable, ?_, ?_, ?_⟩
        · rw [hdval, hstate]
          exact (pySort_perm optKeyLe _).map _
        · intro _
          refine ⟨fb, rfl, ?_⟩
          rw [hdval, hstate]
        · intro habs
          exact Bool.noConfusion habs

/-- The weighted enum fact of the C2 witness scenario. -/
def c2wFact : Fact :=
  { fact_type_id := 1, name := "color", recorded_at := none,
    recorded_by := none, value := some "red", data_type := "string",
    fact_type := "enum", ui_options := none, weight := some 2,
    score := some 50, icon_class := none, detail := none }

/-- Enum table of the C2 witness scenario. -/
def c2wEnums : List EnumRow :=
  [{ fact_type_id := 1, value := "red", score := 75, icon_class := none },
   { fact_type_id := 1, value := "blue", score := 25, icon_class := none }]

/-- The output of the C2 witness scenario. -/
def c2wRes : List Fact :=
  [{ c2wFact with
     detail := some { contribution := some 75, score := some 75,
                      options := [{ label := "blue", value := 25,
                                    selected := false },
                                  { label := "red", value := 75,
                                    selected := true }] } }]

theorem C2_enum_score_detail_witness :
    ∃ d, c2wRes.get ⟨0, by decide⟩ = { c2wFact with detail := some d } ∧
      d.score = some 75 := by
  obtain ⟨d, h1, _h2, _h3, h4, _h5⟩ := C2_enum_score_detail [c2wFact] c2wEnums
    [] c2wRes 0 (by decide) (by decide) (by with_unfolding_all rfl) (by decide)
    rfl (by decide)
  refine ⟨d, h1, ?_⟩
  obtain ⟨fb, hfb, hsc⟩ := h4 (by decide)
  have hfb2 : (50 : ℚ) = fb := Option.some.inj hfb
  rw [hsc, ← hfb2]
  with_unfolding_all decide

/-- A decimal range fact with stored value 3.5 and weight 1. -/
def c3Fact : Fact :=
  { fact_type_id := 3, name := "cov", recorded_at := none,
    recorded_by := none, value := some "3.5", data_type := "decimal",
    fact_type := "range", ui_options := none, weight := some 1,
    score := some 0, icon_class := none, detail := none }

/-- Range table row for fact type 3: interval from 0 to 10 scoring
50. -/
def c3Range : RangeRow :=
  { fact_type_id := 3, min_value := 0, max_value := 10, score := 50 }

/-- C3 counterexample: the coerced value 3.5 lies inside the half-open
interval from 0 to 10, yet the option built for that interval is not
selected (and the raw stored value stays as the selected label),
because Python range membership only admits integral values.  This
refutes the claim that the selected option is the label of the interval
containing the coerced numeric value. -/
theorem C3_counterexample :
    build_score_detail [] [c3Range] [c3Fact] =
      .ok [{ c3Fact with
             detail := some { contribution := some 0, score := some 0,
                              options := [{ label := "[0, 10)", value := 50,
                                            selected := false }] } }] ∧
    coerceValue c3Fact = .ok (.vnum (7 / 2)) ∧
    c3Range.min_value ≤ 7 / 2 ∧ (7 / 2 : ℚ) < c3Range.max_value := by
  refine ⟨by with_unfolding_all rfl, by with_unfolding_all rfl,
    by with_unfolding_all decide, by with_unfolding_all decide⟩

/-- C3 (amended): for range facts, each range option of the fact type
contributes an option labeled with its bounds truncated to integers
(given pairwise distinct labels, as the non-overlap invariant of the
data model provides); at most one option is selected; a selected option
is either an interval that contains the coerced value in the Python
range-membership sense (integral values only; the last such interval
when several match) or a label that happens to equal the raw stored
value; and when no interval Python-contains the value the selected
label stays the raw stored value, so an option is selected only if its
label equals that raw value. -/
theorem C3_range_selection (facts : List Fact) (enumRows : List EnumRow)
    (rangeRows : List RangeRow) (res : List Fact) (i : Nat)
    (hi : i < facts.length) (hi' : i < res.length)
    (hok : build_score_detail enumRows rangeRows facts = .ok res)
    (hdt : (facts.get ⟨i, hi⟩).data_type ≠ "boolean")
    (hfe : (facts.get ⟨i, hi⟩).fact_type ≠ "enum")
    (hfr : (facts.get ⟨i, hi⟩).fact_type = "range")
    (hlnd : ((buildRangeById facts rangeRows
      (facts.get ⟨i, hi⟩).fact_type_id).map
      (fun kv => rangeLabel kv.1.1 kv.1.2)).Nodup) :
    ∃ d v, coerceValue (facts.get ⟨i, hi⟩) = .ok v ∧
      res.get ⟨i, hi'⟩ = { facts.get ⟨i, hi⟩ with detail := some d } ∧
      (d.options.map (fun o => (o.label, o.value))).Perm
        ((buildRangeById facts rangeRows
          (facts.get ⟨i, hi⟩).fact_type_id).map
          (fun kv => (rangeLabel kv.1.1 kv.1.2, kv.2))) ∧
      d.options.countP (fun o => o.selected) ≤ 1 ∧
      (∀ o ∈ d.options, o.selected = true →
        some o.label = (facts.get ⟨i, hi⟩).value ∨
        ∃ kv ∈ buildRangeById facts rangeRows
            (facts.get ⟨i, hi⟩).fact_type_id,
          o.label = rangeLabel kv.1.1 kv.1.2 ∧
          rangeContains kv.1.1 kv.1.2 v = true) ∧
      ((∀ kv ∈ buildRangeById facts rangeRows
          (facts.get ⟨i, hi⟩).fact_type_id,
          rangeContains kv.1.1 kv.1.2 v = false) →
        ∀ o ∈ d.options,
          o.selected = (some o.label == (facts.get ⟨i, hi⟩).value)) := by
  set f := facts.get ⟨i, hi⟩ with hfdef
  set T := buildRangeById facts rangeRows f.fact_type_id with hTdef
  unfold build_score_detail buildScoreDetailWith at hok
  obtain ⟨d, hd, hres⟩ := attachDetails_get _ _ _ facts res hok i hi hi'
  rw [← hfdef] at hd hres
  obtain ⟨v, hv⟩ := processFact_ok_coerce _ _ _ _ _ hd
  have hstate := optionState_range (buildEnumById facts enumRows)
    (buildRangeById facts rangeRows) f v hdt hfe hfr
  have hdopt := processFact_ok_options _ _ _ _ _ _ hv hd
  have hopts : (optionState (buildEnumById facts enumRows)
      (buildRangeById facts rangeRows) f v).1 =
      T.map (fun kv => (rangeLabel kv.1.1 kv.1.2, kv.2)) := by
    rw [hstate, rangeFold_options]
    have := foldl_dictInsert_eq_map strEq
      (fun kv : (Int × Int) × ℚ => rangeLabel kv.1.1 kv.1.2)
      (fun kv : (Int × Int) × ℚ => kv.2) T [] (by simp)
      (by
        refine List.Pairwise.imp ?_ (List.pairwise_map.mp hlnd)
        intro a b hab
        simp only [strEq, beq_eq_false_iff_ne, ne_eq]
        exact hab)
    simpa using this
  have hsel : (optionState (buildEnumById facts enumRows)
      (buildRangeById facts rangeRows) f v).2.1 =
      T.foldl (fun s kv => if rangeContains kv.1.1 kv.1.2 v then
        some (rangeLabel kv.1.1 kv.1.2) else s) f.value := by
    rw [hstate, rangeFold_selected]
  refine ⟨d, v, hv, hres, ?_, ?_, ?_, ?_⟩
  · rw [hdopt, detailOptions_map_label_value]
    exact (pySort_perm optKeyLe _).trans (by rw [hopts])
  · rw [hdopt, detailOptions_countP_selected]
    have hkeys : (((optionState (buildEnumById facts enumRows)
        (buildRangeById facts rangeRows) f v).1).map Prod.fst).Nodup := by
      rw [hopts, List.map_map]
      simpa using hlnd
    exact countP_selected_le_one _ _ hkeys
  · intro o ho hosel
    rw [hdopt] at ho
    rcases detailOptions_mem _ _ _ ho with ⟨kv2, _hkv2, hokv⟩
    have holab : o.label = kv2.1 := by rw [hokv]
    have hoselv : (some kv2.1 == (optionState (buildEnumById facts enumRows)
        (buildRangeById facts rangeRows) f v).2.1) = true := by
      rw [hokv] at hosel
      exact hosel
    have hseleq : (optionState (buildEnumById facts enumRows)
        (buildRangeById facts rangeRows) f v).2.1 = some kv2.1 :=
      ((beq_iff_eq).mp hoselv).symm
    rw [hsel] at hseleq
    rcases selFold_cases v T f.value with hc1 | ⟨kv, hkvm, hkvc, hkve⟩
    · left
      rw [hc1] at hseleq
      rw [holab, ← hseleq]
    · right
      rw [hkve] at hseleq
      have hlab2 : rangeLabel kv.1.1 kv.1.2 = kv2.1 := Option.some.inj hseleq
      exact ⟨kv, hkvm, by rw [holab, ← hlab2], hkvc⟩
  · intro hnone o ho
    have hseleq : (optionState (buildEnumById facts enumRows)
        (buildRangeById facts rangeRows) f v).2.1 = f.value := by
      rw [hsel]
      exact selFold_nomatch v T f.value hnone
    rw [hdopt] at ho
    rcases detailOptions_mem _ _ _ ho with ⟨kv2, _hkv2, hokv⟩
    rw [hokv]
    simp only [hseleq]

/-- The weighted integer range fact of the C3 witness scenario. -/
def c3wFact : Fact :=
  { fact_type_id := 3, name := "cov", recorded_at := none,
    recorded_by := none, value := some "12", data_type := "integer",
    fact_type := "range", ui_options := none, weight := some 2,
    score := some 75, icon_class := none, detail := none }

/-- Range table of the C3 witness scenario. -/
def c3wRanges : List RangeRow :=
  [{ fact_type_id := 3, min_value := 0, max_value := 10, score := 25 },
   { fact_type_id := 3, min_value := 10, max_value := 20, score := 75 }]

/-- The output of the C3 witness scenario. -/
def c3wRes : List Fact :=
  [{ c3wFact with
     detail := some { contribution := some 75, score := some 75,
                      options := [{ label := "[0, 10)", value := 25,
                                    selected := false },
                                  { label := "[10, 20)", value := 75,
                                    selected := true }] } }]

theorem C3_range_selection_witness :
    ∃ d v, coerceValue c3wFact = .ok v ∧
      c3wRes.get ⟨0, by decide⟩ = { c3wFact with detail := some d } ∧
      d.options.countP (fun o => o.selected) ≤ 1 := by
  obtain ⟨d, v, hv, hres, _ha, hb, _hc, _hd⟩ := C3_range_selection [c3wFact]
    [] c3wRanges c3wRes 0 (by decide) (by decide) (by with_unfolding_all rfl)
    (by decide) (by decide) rfl (by with_unfolding_all decide)
  exact ⟨d, v, hv, hres, hb⟩

/-- A boolean fact with a null stored value and a null weight. -/
def c4Fact : Fact :=
  { fact_type_id := 4, name := "ci", recorded_at := none,
    recorded_by := none, value := none, data_type := "boolean",
    fact_type := "free", ui_options := none, weight := none,
    score := none, icon_class := none, detail := none }

/-- C4 counterexample: with this single fact the full weight is 0, yet
the computation raises (the boolean coercion of the null value fails),
refuting the part of the claim that no error is raised when full_weight
is 0. -/
theorem C4_counterexample :
    fullWeightOf [c4Fact] = 0 ∧
    build_score_detail [] [] [c4Fact] = .error (.coercion c4Fact) :=
  ⟨by with_unfolding_all rfl, by with_unfolding_all rfl⟩

/-- C4 (amended): full_weight is the sum of (weight or 0) over all
facts; given non-negative weights (a data-model invariant), a zero full
weight means no fact has a truthy weight, so no division by zero can
occur and every computed contribution is null — though the request can
still fail on a value coercion error; and every fact with truthy
weight that completes has contribution score * weight / full_weight. -/
theorem C4_full_weight (enumById : Nat → List (String × ℚ))
    (rangeById : Nat → List ((Int × Int) × ℚ)) (facts : List Fact)
    (hnn : ∀ f ∈ facts, 0 ≤ weightOrZero f) :
    (buildScoreDetailWith enumById rangeById facts =
      attachDetails enumById rangeById ((facts.map weightOrZero).sum) facts) ∧
    (fullWeightOf facts = 0 →
      (∀ g, buildScoreDetailWith enumById rangeById facts ≠
        .error (.divByZero g)) ∧
      (∀ res, buildScoreDetailWith enumById rangeById facts = .ok res →
        ∀ g ∈ res, ∀ d, g.detail = some d → d.contribution = none)) ∧
    (∀ res, buildScoreDetailWith enumById rangeById facts = .ok res →
      ∀ i (hi : i < facts.length) (hi' : i < res.length),
        pyTruthyWeight (facts.get ⟨i, hi⟩).weight = true →
        ∃ d s, (res.get ⟨i, hi'⟩).detail = some d ∧ d.score = some s ∧
          d.contribution = some (s * (facts.get ⟨i, hi⟩).weight.getD 0 /
            fullWeightOf facts)) := by
  refine ⟨rfl, ?_, ?_⟩
  · intro hW
    have hallz : ∀ f ∈ facts, weightOrZero f = 0 := by
      intro f hf
      exact sum_zero_of_nonneg (facts.map weightOrZero)
        (by
          intro x hx
          rcases List.mem_map.mp hx with ⟨g, hg, rfl⟩
          exact hnn g hg)
        hW (weightOrZero f) (List.mem_map_of_mem _ hf)
    constructor
    · intro g hg
      unfold buildScoreDetailWith at hg
      rcases attachDetails_error _ _ _ _ _ hg with ⟨f2, hf2, herr⟩
      rcases processFact_error_shape _ _ _ _ _ herr with h1 | ⟨htr, _⟩
      · exact DetailError.noConfusion h1
      · rw [pyTruthyWeight_false_of_zero f2 (hallz f2 hf2)] at htr
        exact Bool.noConfusion htr
    · intro res hres g hg d hgd
      unfold buildScoreDetailWith at hres
      rcases attachDetails_mem_res _ _ _ _ _ hres g hg with
        ⟨f2, hf2, d2, hd2, hgdef⟩
      have hw2 : pyTruthyWeight f2.weight = false :=
        pyTruthyWeight_false_of_zero f2 (hallz f2 hf2)
      obtain ⟨v, hv⟩ := processFact_ok_coerce _ _ _ _ _ hd2
      have hpf := processFact_weightless enumById rangeById
        (fullWeightOf facts) f2 v hv hw2
      rw [hd2] at hpf
      have hd2val := Except.ok.inj hpf
      have hgdet : g.detail = some d2 := by rw [hgdef]
      rw [hgdet] at hgd
      have hdd : d = d2 := (Option.some.inj hgd).symm
      rw [hdd, hd2val]
  · intro res hres i hi hi' htr
    unfold buildScoreDetailWith at hres
    obtain ⟨d, hd, hresi⟩ := attachDetails_get _ _ _ _ _ hres i hi hi'
    set f := facts.get ⟨i, hi⟩ with hfdef
    obtain ⟨v, hv⟩ := processFact_ok_coerce _ _ _ _ _ hd
    cases hs : f.score with
    | none =>
      exfalso
      have herr : processFact enumById rangeById (fullWeightOf facts) f =
          .error (.scoreNone f) := by
        unfold processFact
        rw [hv]
        simp [htr, hs]
      rw [hd] at herr
      cases herr
    | some fb =>
      by_cases hW : fullWeightOf facts = 0
      · exfalso
        have herr : processFact enumById rangeById (fullWeightOf facts) f =
            .error (.divByZero f) := by
          unfold processFact
          rw [hv]
          simp [htr, hs, hW]
        rw [hd] at herr
        cases herr
      · have hpf := processFact_weighted enumById rangeById
          (fullWeightOf facts) f v fb hv htr hs hW
        rw [hd] at hpf
        have hdval := Except.ok.inj hpf
        refine ⟨d, (dictGet (optionState enumById rangeById f v).1
          (optionState enumById rangeById f v).2.1).getD fb, ?_, ?_, ?_⟩
        · rw [hresi]
        · rw [hdval]
        · rw [hdval]

/-- The weighted integer fact of the C4 witness scenario. -/
def c4wFact1 : Fact :=
  { fact_type_id := 6, name := "a", recorded_at := none,
    recorded_by := none, value := some "4", data_type := "integer",
    fact_type := "free", ui_options := none, weight := some 1,
    score := some 0, icon_class := none, detail := none }

/-- The weighted boolean fact of the C4 witness scenario. -/
def c4wFact2 : Fact :=
  { fact_type_id := 7, name := "b", recorded_at := none,
    recorded_by := none, value := some "true", data_type := "boolean",
    fact_type := "free", ui_options := none, weight := some 3,
    score := some 100, icon_class := none, detail := none }

/-- The facts list of the C4 witness scenario; full weight 4. -/
def c4wFacts : List Fact := [c4wFact1, c4wFact2]

/-- The output of the C4 witness scenario. -/
def c4wRes : List Fact :=
  [{ c4wFact1 with
     detail := some { contribution := some 0, score := some 0,
                      options := [] } },
   { c4wFact2 with
     detail := some { contribution := some 75, score := some 100,
                      options := [{ label := "false", value := 0,
                                    selected := false },
                                  { label := "true", value := 100,
                                    selected := true }] } }]

theorem C4_full_weight_witness :
    ∃ d s, (c4wRes.get ⟨1, by decide⟩).detail = some d ∧ d.score = some s ∧
      d.contribution = some (s * (c4wFacts.get ⟨1, by decide⟩).weight.getD 0 /
        fullWeightOf c4wFacts) :=
  (C4_full_weight (fun _ => []) (fun _ => []) c4wFacts
    (by
      intro f hf
      fin_cases hf <;> with_unfolding_all decide)).2.2 c4wRes
    (by with_unfolding_all rfl) 1 (by decide) (by decide) (by decide)

/-- An integer range fact with null weight; the range table for its
fact type has one interval. -/
def c5Fact : Fact :=
  { fact_type_id := 2, name := "num", recorded_at := none,
    recorded_by := none, value := some "3", data_type := "integer",
    fact_type := "range", ui_options := none, weight := none,
    score := some 50, icon_class := none, detail := none }

/-- Range table row for fact type 2. -/
def c5Range : RangeRow :=
  { fact_type_id := 2, min_value := 0, max_value := 10, score := 50 }

/-- C5 counterexample: a range fact with a null weight gets detail
score 50 — the score of the last range option, leaked out of the
Python for loop whose variable shadows the outer score — instead of the
null score the claim requires for unweighted facts. -/
theorem C5_counterexample :
    build_score_detail [] [c5Range] [c5Fact] =
      .ok [{ c5Fact with
             detail := some { contribution := none, score := some 50,
                              options := [{ label := "[0, 10)", value := 50,
                                            selected := true }] } }] ∧
    c5Fact.weight = none ∧ some (50 : ℚ) ≠ (none : Option ℚ) :=
  ⟨by with_unfolding_all rfl, rfl, by simp⟩

/-- C5 (amended): a fact with falsy weight (null or 0) always has a
null detail contribution, and the option table is still built and
returned for display; the detail score is null for boolean, enum and
plain facts, but for a range fact it is the score of the last range
option of its fact type (None only when the range table is empty),
because the loop variable named score in the range branch shadows and
overwrites the outer score variable. -/
theorem C5_weightless_detail (enumById : Nat → List (String × ℚ))
    (rangeById : Nat → List ((Int × Int) × ℚ)) (facts res : List Fact)
    (i : Nat) (hi : i < facts.length) (hi' : i < res.length)
    (hok : buildScoreDetailWith enumById rangeById facts = .ok res)
    (hw : pyTruthyWeight (facts.get ⟨i, hi⟩).weight = false) :
    ∃ d v, coerceValue (facts.get ⟨i, hi⟩) = .ok v ∧
      res.get ⟨i, hi'⟩ = { facts.get ⟨i, hi⟩ with detail := some d } ∧
      d.contribution = none ∧
      ((facts.get ⟨i, hi⟩).data_type = "boolean" → d.score = none ∧
        (d.options.map (fun o => (o.label, o.value))).Perm boolOptions) ∧
      ((facts.get ⟨i, hi⟩).data_type ≠ "boolean" →
        (facts.get ⟨i, hi⟩).fact_type = "enum" → d.score = none ∧
        (d.options.map (fun o => (o.label, o.value))).Perm
          (enumById (facts.get ⟨i, hi⟩).fact_type_id)) ∧
      ((facts.get ⟨i, hi⟩).data_type ≠ "boolean" →
        (facts.get ⟨i, hi⟩).fact_type ≠ "enum" →
        (facts.get ⟨i, hi⟩).fact_type = "range" →
        d.score = ((rangeById (facts.get ⟨i, hi⟩).fact_type_id).getLast?).map
          (fun kv => kv.2)) ∧
      ((facts.get ⟨i, hi⟩).data_type ≠ "boolean" →
        (facts.get ⟨i, hi⟩).fact_type ≠ "enum" →
        (facts.get ⟨i, hi⟩).fact_type ≠ "range" →
        d.score = none ∧ d.options = []) := by
  set f := facts.get ⟨i, hi⟩ with hfdef
  unfold buildScoreDetailWith at hok
  obtain ⟨d, hd, hresi⟩ := attachDetails_get _ _ _ facts res hok i hi hi'
  rw [← hfdef] at hd hresi
  obtain ⟨v, hv⟩ := processFact_ok_coerce _ _ _ _ _ hd
  have hpf := processFact_weightless enumById rangeById (fullWeightOf facts)
    f v hv hw
  rw [hd] at hpf
  have hdval := Except.ok.inj hpf
  refine ⟨d, v, hv, hresi, by rw [hdval], ?_, ?_, ?_, ?_⟩
  · intro hb
    have hstate := optionState_bool enumById rangeById f v hb
    constructor
    · rw [hdval, hstate]
    · rw [hdval, hstate, detailOptions_map_label_value]
      exact pySort_perm optKeyLe boolOptions
  · intro hb he
    have hstate := optionState_enum enumById rangeById f v hb he
    constructor
    · rw [hdval, hstate]
    · rw [hdval, hstate, detailOptions_map_label_value]
      exact pySort_perm optKeyLe _
  · intro hb he hr
    have hstate := optionState_range enumById rangeById f v hb he hr
    rw [hdval, hstate, rangeFold_leak]
    cases hl : (rangeById f.fact_type_id).getLast? <;> rfl
  · intro hb he hr
    have hstate := optionState_plain enumById rangeById f v hb he hr
    constructor
    · rw [hdval, hstate]
    · rw [hdval, hstate]
      rfl

/-- The weightless enum fact of the C5 witness scenario. -/
def c5wFact1 : Fact :=
  { fact_type_id := 1, name := "color", recorded_at := none,
    recorded_by := none, value := some "red", data_type := "string",
    fact_type := "enum", ui_options := none, weight := none,
    score := some 50, icon_class := none, detail := none }

/-- The weighted boolean fact of the C5 witness scenario. -/
def c5wFact2 : Fact :=
  { fact_type_id := 5, name := "flag", recorded_at := none,
    recorded_by := none, value := some "true", data_type := "boolean",
    fact_type := "free", ui_options := none, weight := some 1,
    score := some 100, icon_class := none, detail := none }

/-- The facts list of the C5 witness scenario. -/
def c5wFacts : List Fact := [c5wFact1, c5wFact2]

/-- Enum table of the C5 witness scenario. -/
def c5wEnums : List EnumRow :=
  [{ fact_type_id := 1, value := "red", score := 75, icon_class := none }]

/-- The output of the C5 witness scenario. -/
def c5wRes : List Fact :=
  [{ c5wFact1 with
     detail := some { contribution := none, score := none,
                      options := [{ label := "red", value := 75,
                                    selected := true }] } },
   { c5wFact2 with
     detail := some { contribution := some 100, score := some 100,
                      options := [{ label := "false", value := 0,
                                    selected := false },
                                  { label := "true", value := 100,
                                    selected := true }] } }]

theorem C5_weightless_detail_witness :
    ∃ d v, coerceValue c5wFact1 = .ok v ∧
      c5wRes.get ⟨0, by decide⟩ = { c5wFact1 with detail := some d } ∧
      d.contribution = none ∧ d.score = none := by
  obtain ⟨d, v, hv, hresi, hcontrib, _hb, he, _hr, _hp⟩ :=
    C5_weightless_detail (buildEnumById c5wFacts c5wEnums)
      (buildRangeById c5wFacts []) c5wFacts c5wRes 0 (by decide) (by decide)
      (by with_unfolding_all rfl) (by decide)
  obtain ⟨hsc, _hperm⟩ := he (by decide) rfl
  exact ⟨d, v, hv, hresi, hcontrib, hsc⟩

/-- C6: value coercion maps a raw stored string and a declared data
type to a typed value: boolean is a case-insensitive comparison of the
value with "true"; decimal parses a float, defaulting to 0.0 on null or
empty; integer parses a base-10 integer, defaulting to 0 on null or
empty; other types pass through as the string; and any coercion
failure carries the offending fact record (the logged context) and
propagates, so a computation that completes had no coercion failure. -/
theorem C6_value_coercion :
    (∀ f s, f.data_type = "boolean" → f.value = some s →
      coerceValue f = .ok (.vbool (pyLower s == "true"))) ∧
    (∀ f, f.data_type = "decimal" → (f.value = none ∨ f.value = some "") →
      coerceValue f = .ok (.vnum 0)) ∧
    (∀ f s q, f.data_type = "decimal" → f.value = some s → s ≠ "" →
      pyFloat s = some q → coerceValue f = .ok (.vnum q)) ∧
    (∀ f s, f.data_type = "decimal" → f.value = some s → s ≠ "" →
      pyFloat s = none → coerceValue f = .error (.coercion f)) ∧
    (∀ f, f.data_type = "integer" → (f.value = none ∨ f.value = some "") →
      coerceValue f = .ok (.vnum 0)) ∧
    (∀ f s, f.data_type = "integer" → f.value = some s → s ≠ "" →
      pyInt s = none → coerceValue f = .error (.coercion f)) ∧
    (∀ f s, f.data_type ≠ "boolean" → f.data_type ≠ "decimal" →
      f.data_type ≠ "integer" → f.value = some s →
      coerceValue f = .ok (.vstr s)) ∧
    (∀ f ε, coerceValue f = .error ε → ε = .coercion f) ∧
    (∀ f ε e r W, coerceValue f = .error ε →
      processFact e r W f = .error (.coercion f)) ∧
    (∀ e r W l res, attachDetails e r W l = .ok res →
      ∀ f ∈ l, ∃ v, coerceValue f = .ok v) := by
  refine ⟨?_, ?_, ?_, ?_, ?_, ?_, ?_, coerceValue_error, ?_, ?_⟩
  · intro f s hdt hval
    unfold coerceValue
    simp [hdt, hval]
  · intro f hdt hv
    unfold coerceValue
    rcases hv with hv | hv <;>
      simp [hdt, hv, pyOrDefault, pyFloat_zero_default]
  · intro f s q hdt hval hne hq
    unfold coerceValue
    have hbne : (s == "") = false := by simpa using hne
    simp [hdt, hval, pyOrDefault, hbne, hq]
  · intro f s hdt hval hne hq
    unfold coerceValue
    have hbne : (s == "") = false := by simpa using hne
    simp [hdt, hval, pyOrDefault, hbne, hq]
  · intro f hdt hv
    unfold coerceValue
    rcases hv with hv | hv <;>
      simp [hdt, hv, pyOrDefault, pyInt_zero_default]
  · intro f s hdt hval hne hq
    unfold coerceValue
    have hbne : (s == "") = false := by simpa using hne
    simp [hdt, hval, pyOrDefault, hbne, hq]
  · intro f s h1 h2 h3 hval
    unfold coerceValue
    have hb1 : (f.data_type == "boolean") = false := by simpa using h1
    have hb2 : (f.data_type == "decimal") = false := by simpa using h2
    have hb3 : (f.data_type == "integer") = false := by simpa using h3
    simp [hb1, hb2, hb3, hval]
  · intro f ε e r W he
    unfold processFact
    rw [he, coerceValue_error f ε he]
  · intro e r W l res hok f hf
    rcases attachDetails_mem e r W l res hok f hf with ⟨d, hd, _⟩
    exact processFact_ok_coerce e r W f d hd

/-- The boolean fact of the C6 witness, stored with mixed case. -/
def c6BoolFact : Fact :=
  { fact_type_id := 11, name := "flag", recorded_at := none,
    recorded_by := none, value := some "TRUE", data_type := "boolean",
    fact_type := "free", ui_options := none, weight := some 1,
    score := some 100, icon_class := none, detail := none }

/-- The decimal fact of the C6 witness with an unparsable value. -/
def c6BadFact : Fact :=
  { fact_type_id := 12, name := "cov", recorded_at := none,
    recorded_by := none, value := some "abc", data_type := "decimal",
    fact_type := "free", ui_options := none, weight := some 1,
    score := some 0, icon_class := none, detail := none }

theorem C6_value_coercion_witness :
    coerceValue c6BoolFact = .ok (.vbool true) ∧
    coerceValue c6BadFact = .error (.coercion c6BadFact) ∧
    processFact (fun _ => []) (fun _ => []) 1 c6BadFact =
      .error (.coercion c6BadFact) := by
  obtain ⟨h1, _h2, _h3, h4, _h5, _h6, _h7, _h8, h9, _h10⟩ := C6_value_coercion
  have hb := h1 c6BoolFact "TRUE" rfl rfl
  have hlow : (pyLower "TRUE" == "true") = true := by decide
  rw [hlow] at hb
  have hbad := h4 c6BadFact "abc" rfl rfl (by decide) (by decide)
  exact ⟨hb, hbad, h9 c6BadFact _ _ _ _ hbad⟩

/-- A boolean fact type applicable to project type 1 with no stored
fact value. -/
def c7FT : FactTypeRow :=
  { id := 9, name := "ci", data_type := "boolean", fact_type := "free",
    project_type_ids := [1], weight := some 1, ui_options := none }

/-- C7 counterexample: the applicable boolean fact type with no stored
value does appear in the query rows, but with score 0 — not a null
score — and the score-detail computation on that row fails with a
coercion error (None.lower() raises), so processing such facts does
fail the request. -/
theorem C7_counterexample :
    getFactsRows 42 1 [c7FT] [] [] [] = some [nullFactRow c7FT] ∧
    (nullFactRow c7FT).value = none ∧
    (nullFactRow c7FT).score = some 0 ∧ some (0 : ℚ) ≠ (none : Option ℚ) ∧
    build_score_detail [] [] [nullFactRow c7FT] =
      .error (.coercion (nullFactRow c7FT)) :=
  ⟨by with_unfolding_all rfl, rfl, rfl, by simp, by with_unfolding_all rfl⟩

/-- C7 (amended): every fact type applicable to the project type of
the project appears in the query rows even with no stored value, as a
row with null value and score 0 (not null); processing such a row does
not fail for non-boolean data types (given the full weight is nonzero
when the weight is truthy), but for a boolean data type the coercion
of the null value raises and fails the request. -/
theorem C7_missing_value_facts (pid ptid : Nat)
    (factTypes : List FactTypeRow) (projectFacts : List ProjectFactRow)
    (enums : List EnumRow) (ranges : List RangeRow) (rows : List Fact)
    (a : FactTypeRow) (ha : a ∈ factTypes)
    (happ : ptid ∈ a.project_type_ids)
    (hnov : ∀ b ∈ projectFacts, ¬(b.project_id = pid ∧ b.fact_type_id = a.id))
    (hok : getFactsRows pid ptid factTypes projectFacts enums ranges =
      some rows) :
    nullFactRow a ∈ rows ∧ (nullFactRow a).value = none ∧
    (nullFactRow a).score = some 0 ∧
    (a.data_type = "boolean" →
      ∀ e r W, processFact e r W (nullFactRow a) =
        .error (.coercion (nullFactRow a))) ∧
    (a.data_type ≠ "boolean" →
      ∀ (e : Nat → List (String × ℚ)) (r : Nat → List ((Int × Int) × ℚ))
        (W : ℚ), (pyTruthyWeight a.weight = true → W ≠ 0) →
        ∃ d, processFact e r W (nullFactRow a) = .ok d) := by
  have hmem : a ∈ pySort (fun x y => pyStrLe x.name y.name)
      (factTypes.filter (fun x => x.project_type_ids.contains ptid)) := by
    apply (pySort_perm _ _).mem_iff.mpr
    apply List.mem_filter.mpr
    exact ⟨ha, by simpa using happ⟩
  unfold getFactsRows at hok
  have hj := joinRows_nullRow pid a projectFacts enums ranges hnov
  have hmem2 := getFactsRowsAux_mem pid projectFacts enums ranges _ rows a
    hok hmem _ hj (nullFactRow a) (by simp)
  refine ⟨hmem2, rfl, rfl, ?_, ?_⟩
  · intro hb e r W
    have hco : coerceValue (nullFactRow a) =
        .error (.coercion (nullFactRow a)) :=
      coerceValue_bool_none (nullFactRow a) rfl hb
    unfold processFact
    rw [hco]
  · intro hb e r W hW
    exact processFact_null_ok e r W (nullFactRow a) rfl hb ⟨0, rfl⟩ hW

/-- The decimal fact type of the C7 witness, applicable to project
type 1 and backed by no stored value. -/
def c7wFT : FactTypeRow :=
  { id := 10, name := "cov", data_type := "decimal", fact_type := "free",
    project_type_ids := [1], weight := some 1, ui_options := none }

theorem C7_missing_value_facts_witness :
    nullFactRow c7wFT ∈ [nullFactRow c7wFT] ∧
    ∃ d, processFact (fun _ => []) (fun _ => []) 1 (nullFactRow c7wFT) =
      .ok d := by
  obtain ⟨hmem, _hv, _hs, _hb, hok2⟩ := C7_missing_value_facts 42 1 [c7wFT]
    [] [] [] [nullFactRow c7wFT] c7wFT (by simp) (by decide) (by simp)
    (by with_unfolding_all rfl)
  exact ⟨hmem, hok2 (by decide) (fun _ => []) (fun _ => []) 1
    (fun _ => by decide)⟩

/-- C10: the score-detail computation only adds a detail to each fact
record: on success, the result has the same length as the input and
each output record is its input record with every prior field — id,
name, timestamps, value, types, ui options, weight, score, icon —
unchanged and only the detail slot filled. -/
theorem C10_only_adds_detail (enumById : Nat → List (String × ℚ))
    (rangeById : Nat → List ((Int × Int) × ℚ)) (facts res : List Fact)
    (hok : buildScoreDetailWith enumById rangeById facts = .ok res) :
    res.length = facts.length ∧
    ∀ i (hi : i < facts.length) (hi' : i < res.length),
      ∃ d, res.get ⟨i, hi'⟩ = { facts.get ⟨i, hi⟩ with detail := some d } ∧
        (res.get ⟨i, hi'⟩).fact_type_id = (facts.get ⟨i, hi⟩).fact_type_id ∧
        (res.get ⟨i, hi'⟩).name = (facts.get ⟨i, hi⟩).name ∧
        (res.get ⟨i, hi'⟩).recorded_at = (facts.get ⟨i, hi⟩).recorded_at ∧
        (res.get ⟨i, hi'⟩).recorded_by = (facts.get ⟨i, hi⟩).recorded_by ∧
        (res.get ⟨i, hi'⟩).value = (facts.get ⟨i, hi⟩).value ∧
        (res.get ⟨i, hi'⟩).data_type = (facts.get ⟨i, hi⟩).data_type ∧
        (res.get ⟨i, hi'⟩).fact_type = (facts.get ⟨i, hi⟩).fact_type ∧
        (res.get ⟨i, hi'⟩).ui_options = (facts.get ⟨i, hi⟩).ui_options ∧
        (res.get ⟨i, hi'⟩).weight = (facts.get ⟨i, hi⟩).weight ∧
        (res.get ⟨i, hi'⟩).score = (facts.get ⟨i, hi⟩).score ∧
        (res.get ⟨i, hi'⟩).icon_class = (facts.get ⟨i, hi⟩).icon_class := by
  unfold buildScoreDetailWith at hok
  refine ⟨attachDetails_length _ _ _ _ _ hok, ?_⟩
  intro i hi hi'
  obtain ⟨d, _hd, hresi⟩ := attachDetails_get _ _ _ _ _ hok i hi hi'
  refine ⟨d, hresi, ?_⟩
  rw [hresi]
  exact ⟨rfl, rfl, rfl, rfl, rfl, rfl, rfl, rfl, rfl, rfl, rfl⟩

/-- The plain string fact of the C10 witness scenario. -/
def c10Fact : Fact :=
  { fact_type_id := 8, name := "note", recorded_at := some "t1",
    recorded_by := some "u1", value := some "x", data_type := "string",
    fact_type := "free", ui_options := some "o", weight := none,
    score := some 0, icon_class := none, detail := none }

/-- The output of the C10 witness scenario. -/
def c10Res : List Fact :=
  [{ c10Fact with
     detail := some { contribution := none, score := none,
                      options := [] } }]

theorem C10_only_adds_detail_witness :
    ∃ d, c10Res.get ⟨0, by decide⟩ = { c10Fact with detail := some d } ∧
      (c10Res.get ⟨0, by decide⟩).value = c10Fact.value := by
  obtain ⟨_hlen, hall⟩ := C10_only_adds_detail (fun _ => []) (fun _ => [])
    [c10Fact] c10Res (by with_unfolding_all rfl)
  obtain ⟨d, h1, _h2, _h3, _h4, _h5, h6, _⟩ := hall 0 (by decide) (by decide)
  exact ⟨d, h1, h6⟩

end Imbi
